import Mathlib

/-!
# Verification of the kotsadm provisioning engine (`alrs/kots`)

Shallow embedding of the secret/minio provisioning code of package `kotsadm`
(files concatenated in `src/pkg/upload/upload.go`: `getSecretsYAML`,
`ensureSecrets`, `ensureJWTSessionSecret`, `ensurePostgresSecret`,
`ensureSharedPasswordSecret`, `ensureS3Secret`, `getMinioYAML`, `ensureMinio`,
`ensureMinioConfigMap`, `ensureMinioStatefulset`, `ensureMinioService`,
`ensureMinioJob`).

External effects (Kubernetes clientset get/create, `uuid.New`,
`bcrypt.GenerateFromPassword`, the interactive password prompt, and the YAML
serializer) are modelled by an explicit environment `Env`; the cluster and the
uuid draw position are an explicit `World` threaded through each function, and
every observable action is recorded as an `Event` so that "performs no create",
"computes the hash once", etc., are statable.
-/

namespace Kots

/-- The kind of Kubernetes object an ensure-operation manages: one of the
fixed categories of the engine. -/
inductive Kind where
  | secret
  | configMap
  | statefulSet
  | service
  | job
deriving DecidableEq, Repr

/-- (kind, namespace, name) tuple used by the applier to test existence. -/
structure ClusterResourceKey where
  kind : Kind
  ns : String
  name : String
deriving DecidableEq, Repr

/-- Modelled from the spec (§4.1) and from call sites in src: `DeployOptions`
is defined elsewhere in the `kotsadm` package (not under src/). Fields are
exactly the ones the src code reads or writes: namespace, session-signing key
(`JWT`), postgres password, shared password plaintext and bcrypt hash, S3
access/secret keys. -/
structure DeployOptions where
  Namespace : String
  JWT : String
  PostgresPassword : String
  SharedPassword : String
  SharedPasswordBcrypt : String
  S3AccessKey : String
  S3SecretKey : String
deriving DecidableEq, Repr

/-- Modelled from the spec (§4.1): the resource builders (`jwtSecret`,
`pgSecret`, `sharedPasswordSecret`, `s3Secret`, `minioConfigMap`,
`minioStatefulset`, `minioService`, `minioJob`) are defined elsewhere in the
repository (not under src/). Per §4.1 they are pure and deterministic: all
variable material is passed in. So each builder is a constructor carrying
exactly the arguments the src call sites pass it. -/
inductive Resource where
  | jwtSecret (ns key : String)
  | pgSecret (ns password : String)
  | sharedPasswordSecret (ns bcryptPassword : String)
  | s3Secret (ns accessKey secretKey : String)
  | minioConfigMap (ns : String)
  | minioStatefulset (ns : String)
  | minioService (ns : String)
  | minioJob (ns : String)
deriving DecidableEq, Repr

/-- Observable actions of one provisioning pass: existence queries, create
calls (with success flag), bcrypt invocations, uuid draws, prompt calls. -/
inductive Event where
  | getE (k : ClusterResourceKey)
  | createE (k : ClusterResourceKey) (ok : Bool)
  | bcryptE (password : String)
  | uuidE
  | promptE
deriving DecidableEq, Repr

/-- The environment: the external collaborators of the subsystem.
`uuidStream` models `uuid.New().String()` (the n-th draw); `getErr`/`createErr`
inject cluster-access failures other than not-found; `bcrypt` models
`bcrypt.GenerateFromPassword(·, 10)`; `promptPassword` the interactive prompt;
`encode` the YAML serializer `s.Encode`. -/
structure Env where
  uuidStream : Nat → String
  getErr : ClusterResourceKey → Option String
  createErr : ClusterResourceKey → Option String
  bcrypt : String → Except String String
  promptPassword : Except String String
  encode : Resource → Except String String

/-- Mutable world of a pass: the live cluster (an association list keyed by
`ClusterResourceKey`) and the number of uuids drawn so far. -/
structure World where
  resources : List (ClusterResourceKey × Resource)
  uuidCount : Nat
deriving DecidableEq, Repr

/-- Look a resource up by its key in the cluster. -/
def lookupResource (k : ClusterResourceKey) :
    List (ClusterResourceKey × Resource) → Option Resource
  | [] => none
  | (k', r) :: rest => if k' = k then some r else lookupResource k rest

/-- Result of a clientset `Get`: found, well-formed not-found
(`kuberneteserrors.IsNotFound`), or any other failure. -/
inductive GetResult where
  | found (r : Resource)
  | notFound
  | errR (e : String)
deriving DecidableEq, Repr

/-- `clientset...Get(name, metav1.GetOptions{})`, classified exactly as the
source does via `kuberneteserrors.IsNotFound`. -/
def getResource (env : Env) (k : ClusterResourceKey) (w : World) : GetResult :=
  match env.getErr k with
  | some e => .errR e
  | none =>
    match lookupResource k w.resources with
    | some r => .found r
    | none => .notFound

/-- `uuid.New().String()`: one draw from the stream. -/
def nextUUID (env : Env) (w : World) : String × World :=
  (env.uuidStream w.uuidCount, { w with uuidCount := w.uuidCount + 1 })

/-- Result of one ensure-operation: the returned `error` (`ok` = nil), the
world after, and the events it performed, in order. -/
structure EnsureResult where
  res : Except String Unit
  world : World
  events : List Event
deriving Repr

/-- Result of an ensure-operation that receives `*DeployOptions` (and so may
write parameter fields back). -/
structure EnsureResultP where
  res : Except String Unit
  opts : DeployOptions
  world : World
  events : List Event
deriving Repr

/-- The literal shape shared by all eight ensure-functions in the source:
Get by fixed name; if the error is not not-found, wrap and return it; if
not-found, build the resource (possibly drawing uuids) and Create it, wrapping
a create failure; if the Get succeeded, do nothing. `build` returns the built
resource, the world after any uuid draws, and the draw events. -/
def ensureCore (env : Env) (k : ClusterResourceKey) (getMsg createMsg : String)
    (build : World → Resource × World × List Event) (w : World) : EnsureResult :=
  match getResource env k w with
  | .errR e => ⟨.error (getMsg ++ ": " ++ e), w, [.getE k]⟩
  | .found _ => ⟨.ok (), w, [.getE k]⟩
  | .notFound =>
    let (r, w₁, evs) := build w
    match env.createErr k with
    | some e =>
      ⟨.error (createMsg ++ ": " ++ e), w₁, .getE k :: evs ++ [.createE k false]⟩
    | none =>
      ⟨.ok (), { w₁ with resources := (k, r) :: w₁.resources },
        .getE k :: evs ++ [.createE k true]⟩

/-- `func ensureS3Secret(namespace string, clientset *kubernetes.Clientset) error`:
gets Secret `kotsadm-minio`; if absent, creates
`s3Secret(namespace, uuid.New().String(), uuid.New().String())`. -/
def ensureS3Secret (env : Env) (ns : String) (w : World) : EnsureResult :=
  ensureCore env ⟨Kind.secret, ns, "kotsadm-minio"⟩
    "failed to get existing s3 secret" "failed to create s3 secret"
    (fun w =>
      let (accessKey, w₁) := nextUUID env w
      let (secretKey, w₂) := nextUUID env w₁
      (Resource.s3Secret ns accessKey secretKey, w₂, [.uuidE, .uuidE])) w

/-- `func ensureJWTSessionSecret(namespace string, clientset *kubernetes.Clientset) error`:
gets Secret `kotsadm-session`; if absent, creates
`jwtSecret(namespace, uuid.New().String())`. -/
def ensureJWTSessionSecret (env : Env) (ns : String) (w : World) :
    EnsureResult :=
  ensureCore env ⟨Kind.secret, ns, "kotsadm-session"⟩
    "failed to get existing session secret" "failed to create jwt session secret"
    (fun w =>
      let (key, w₁) := nextUUID env w
      (Resource.jwtSecret ns key, w₁, [.uuidE])) w

/-- `func ensurePostgresSecret(deployOptions DeployOptions, clientset *kubernetes.Clientset) error`
(options passed by value): gets Secret `kotsadm-postgres`; if absent, creates
`pgSecret(deployOptions.Namespace, deployOptions.PostgresPassword)`. -/
def ensurePostgresSecret (env : Env) (deployOptions : DeployOptions) (w : World) :
    EnsureResult :=
  ensureCore env ⟨Kind.secret, deployOptions.Namespace, "kotsadm-postgres"⟩
    "failed to get existing postgres secret" "failed to create postgres secret"
    (fun w =>
      (Resource.pgSecret deployOptions.Namespace deployOptions.PostgresPassword,
        w, [])) w

/-- `func ensureSharedPasswordSecret(deployOptions *DeployOptions, clientset *kubernetes.Clientset) error`:
prompts for the shared password if empty (writing it back into the options),
then unconditionally computes `bcrypt.GenerateFromPassword(...)`, then gets
Secret `kotsadm-password`; if absent, creates
`sharedPasswordSecret(namespace, string(bcryptPassword))`. -/
def ensureSharedPasswordSecret (env : Env) (deployOptions : DeployOptions)
    (w : World) : EnsureResultP :=
  if deployOptions.SharedPassword = "" then
    match env.promptPassword with
    | .error e =>
      ⟨.error ("failed to prompt for shared password: " ++ e), deployOptions, w,
        [.promptE]⟩
    | .ok sharedPassword =>
      let deployOptions := { deployOptions with SharedPassword := sharedPassword }
      match env.bcrypt deployOptions.SharedPassword with
      | .error e =>
        ⟨.error ("failed to bcrypt shared password: " ++ e), deployOptions, w,
          [.promptE, .bcryptE deployOptions.SharedPassword]⟩
      | .ok bcryptPassword =>
        let r := ensureCore env
          ⟨Kind.secret, deployOptions.Namespace, "kotsadm-password"⟩
          "failed to get existing password secret" "failed to create password secret"
          (fun w =>
            (Resource.sharedPasswordSecret deployOptions.Namespace bcryptPassword,
              w, [])) w
        ⟨r.res, deployOptions, r.world,
          .promptE :: .bcryptE deployOptions.SharedPassword :: r.events⟩
  else
    match env.bcrypt deployOptions.SharedPassword with
    | .error e =>
      ⟨.error ("failed to bcrypt shared password: " ++ e), deployOptions, w,
        [.bcryptE deployOptions.SharedPassword]⟩
    | .ok bcryptPassword =>
      let r := ensureCore env
        ⟨Kind.secret, deployOptions.Namespace, "kotsadm-password"⟩
        "failed to get existing password secret" "failed to create password secret"
        (fun w =>
          (Resource.sharedPasswordSecret deployOptions.Namespace bcryptPassword,
            w, [])) w
      ⟨r.res, deployOptions, r.world,
        .bcryptE deployOptions.SharedPassword :: r.events⟩

/-- `func ensureSecrets(deployOptions *DeployOptions, clientset *kubernetes.Clientset) error`:
jwt session secret, postgres secret (options by value), shared password secret
(options by pointer), s3 secret, stopping at the first failure and wrapping it. -/
def ensureSecrets (env : Env) (deployOptions : DeployOptions) (w : World) :
    EnsureResultP :=
  let r₁ := ensureJWTSessionSecret env deployOptions.Namespace w
  match r₁.res with
  | .error e =>
    ⟨.error ("failed to ensure jwt session secret: " ++ e), deployOptions,
      r₁.world, r₁.events⟩
  | .ok _ =>
    let r₂ := ensurePostgresSecret env deployOptions r₁.world
    match r₂.res with
    | .error e =>
      ⟨.error ("failed to ensure postgres secret: " ++ e), deployOptions,
        r₂.world, r₁.events ++ r₂.events⟩
    | .ok _ =>
      let r₃ := ensureSharedPasswordSecret env deployOptions r₂.world
      match r₃.res with
      | .error e =>
        ⟨.error ("failed to ensure shared password secret: " ++ e), r₃.opts,
          r₃.world, r₁.events ++ r₂.events ++ r₃.events⟩
      | .ok _ =>
        let r₄ := ensureS3Secret env r₃.opts.Namespace r₃.world
        match r₄.res with
        | .error e =>
          ⟨.error ("failed to ensure s3 secret: " ++ e), r₃.opts, r₄.world,
            r₁.events ++ r₂.events ++ r₃.events ++ r₄.events⟩
        | .ok _ =>
          ⟨.ok (), r₃.opts, r₄.world,
            r₁.events ++ r₂.events ++ r₃.events ++ r₄.events⟩

/-- `func ensureMinioConfigMap(namespace string, clientset *kubernetes.Clientset) error`. -/
def ensureMinioConfigMap (env : Env) (ns : String) (w : World) :
    EnsureResult :=
  ensureCore env ⟨Kind.configMap, ns, "kotsadm-minio"⟩
    "failed to get existing config map" "failed to create configmap"
    (fun w => (Resource.minioConfigMap ns, w, [])) w

/-- `func ensureMinioStatefulset(namespace string, clientset *kubernetes.Clientset) error`. -/
def ensureMinioStatefulset (env : Env) (ns : String) (w : World) :
    EnsureResult :=
  ensureCore env ⟨Kind.statefulSet, ns, "kotsadm-minio"⟩
    "failed to get existing statefulset" "failed to create minio statefulset"
    (fun w => (Resource.minioStatefulset ns, w, [])) w

/-- `func ensureMinioService(namespace string, clientset *kubernetes.Clientset) error`. -/
def ensureMinioService (env : Env) (ns : String) (w : World) :
    EnsureResult :=
  ensureCore env ⟨Kind.service, ns, "kotsadm-minio"⟩
    "failed to get existing service" "failed to create service"
    (fun w => (Resource.minioService ns, w, [])) w

/-- `func ensureMinioJob(namespace string, clientset *kubernetes.Clientset) error`. -/
def ensureMinioJob (env : Env) (ns : String) (w : World) : EnsureResult :=
  ensureCore env ⟨Kind.job, ns, "kotsadm-minio"⟩
    "failed to get existing job" "failed to create job"
    (fun w => (Resource.minioJob ns, w, [])) w

/-- `func ensureMinio(deployOptions DeployOptions, clientset *kubernetes.Clientset) error`:
config map, statefulset, service, job, stopping at the first failure. -/
def ensureMinio (env : Env) (deployOptions : DeployOptions) (w : World) :
    EnsureResult :=
  let r₁ := ensureMinioConfigMap env deployOptions.Namespace w
  match r₁.res with
  | .error e =>
    ⟨.error ("failed to ensure minio configmap: " ++ e), r₁.world, r₁.events⟩
  | .ok _ =>
    let r₂ := ensureMinioStatefulset env deployOptions.Namespace r₁.world
    match r₂.res with
    | .error e =>
      ⟨.error ("failed to ensure minio statefulset: " ++ e), r₂.world,
        r₁.events ++ r₂.events⟩
    | .ok _ =>
      let r₃ := ensureMinioService env deployOptions.Namespace r₂.world
      match r₃.res with
      | .error e =>
        ⟨.error ("failed to ensure minio service: " ++ e), r₃.world,
          r₁.events ++ r₂.events ++ r₃.events⟩
      | .ok _ =>
        let r₄ := ensureMinioJob env deployOptions.Namespace r₃.world
        match r₄.res with
        | .error e =>
          ⟨.error ("failed to ensure minio job: " ++ e), r₄.world,
            r₁.events ++ r₂.events ++ r₃.events ++ r₄.events⟩
        | .ok _ =>
          ⟨.ok (), r₄.world, r₁.events ++ r₂.events ++ r₃.events ++ r₄.events⟩

/-- Modelled from the spec (§4.5): the Provisioning Orchestrator (not under
src/) sequences the ensure-credentials group, then the ensure-storage-service
group, stopping at the first failure and surfacing it. -/
def ensureKotsadm (env : Env) (deployOptions : DeployOptions) (w : World) :
    EnsureResultP :=
  let r₁ := ensureSecrets env deployOptions w
  match r₁.res with
  | .error e => ⟨.error e, r₁.opts, r₁.world, r₁.events⟩
  | .ok _ =>
    let r₂ := ensureMinio env r₁.opts r₁.world
    ⟨r₂.res, r₁.opts, r₂.world, r₁.events ++ r₂.events⟩

/-- Result of a render call: Go's two return values `(map[string][]byte, error)`
(the map kept as an ordered association list), plus the options (getSecretsYAML
takes `*DeployOptions` and writes generated fields back), the world and the
events. -/
structure RenderResult where
  docs : Option (List (String × String))
  err : Option String
  opts : DeployOptions
  world : World
  events : List Event
deriving Repr

/-- `func getSecretsYAML(deployOptions *DeployOptions) (map[string][]byte, error)`:
encodes the jwt and pg secrets from the given fields; computes the bcrypt hash
only when `SharedPasswordBcrypt` is empty, writing it back; generates
`S3SecretKey` then `S3AccessKey` when empty, writing them back; encodes the
shared-password and s3 secrets; any encode or bcrypt failure returns
`(nil, err)`. -/
def getSecretsYAML (env : Env) (deployOptions : DeployOptions) (w : World) :
    RenderResult :=
  match env.encode (Resource.jwtSecret deployOptions.Namespace deployOptions.JWT) with
  | .error e =>
    ⟨none, some ("failed to marshal jwt secret: " ++ e), deployOptions, w, []⟩
  | .ok jwtDoc =>
  match env.encode (Resource.pgSecret deployOptions.Namespace
      deployOptions.PostgresPassword) with
  | .error e =>
    ⟨none, some ("failed to marshal pg secret: " ++ e), deployOptions, w, []⟩
  | .ok pgDoc =>
  if deployOptions.SharedPasswordBcrypt = "" then
    match env.bcrypt deployOptions.SharedPassword with
    | .error e =>
      ⟨none, some ("failed to bcrypt shared password: " ++ e), deployOptions, w,
        [.bcryptE deployOptions.SharedPassword]⟩
    | .ok bcryptPassword =>
      getSecretsYAMLrest env
        { deployOptions with SharedPasswordBcrypt := bcryptPassword } w
        jwtDoc pgDoc [.bcryptE deployOptions.SharedPassword]
  else
    getSecretsYAMLrest env deployOptions w jwtDoc pgDoc []
where
  /-- The tail of `getSecretsYAML` after the shared-password hash is in place:
  encode the shared-password secret, default the S3 keys, encode the s3 secret,
  assemble the document map in source order. -/
  getSecretsYAMLrest (env : Env) (deployOptions : DeployOptions) (w : World)
      (jwtDoc pgDoc : String) (evs : List Event) : RenderResult :=
    match env.encode (Resource.sharedPasswordSecret deployOptions.Namespace
        deployOptions.SharedPasswordBcrypt) with
    | .error e =>
      ⟨none, some ("failed to marshal shared password secret: " ++ e),
        deployOptions, w, evs⟩
    | .ok sharedPasswordDoc =>
      let (deployOptions, w, evs) :=
        if deployOptions.S3SecretKey = "" then
          let (u, w') := nextUUID env w
          ({ deployOptions with S3SecretKey := u }, w', evs ++ [Event.uuidE])
        else (deployOptions, w, evs)
      let (deployOptions, w, evs) :=
        if deployOptions.S3AccessKey = "" then
          let (u, w') := nextUUID env w
          ({ deployOptions with S3AccessKey := u }, w', evs ++ [Event.uuidE])
        else (deployOptions, w, evs)
      match env.encode (Resource.s3Secret deployOptions.Namespace
          deployOptions.S3AccessKey deployOptions.S3SecretKey) with
      | .error e =>
        ⟨none, some ("failed to marshal s3 secret: " ++ e), deployOptions, w, evs⟩
      | .ok s3Doc =>
        ⟨some [("secret-jwt.yaml", jwtDoc), ("secret-pg.yaml", pgDoc),
            ("secret-shared-password.yaml", sharedPasswordDoc),
            ("secret-s3.yaml", s3Doc)],
          none, deployOptions, w, evs⟩

/-- `func getMinioYAML(namespace string) (map[string][]byte, error)`: encodes
the minio config map, statefulset, service and job; any encode failure returns
`(nil, err)`. -/
def getMinioYAML (env : Env) (ns : String) :
    Option (List (String × String)) × Option String :=
  match env.encode (Resource.minioConfigMap ns) with
  | .error e => (none, some ("failed to marshal minio config map: " ++ e))
  | .ok configMapDoc =>
  match env.encode (Resource.minioStatefulset ns) with
  | .error e => (none, some ("failed to marshal minio statefulset: " ++ e))
  | .ok statefulsetDoc =>
  match env.encode (Resource.minioService ns) with
  | .error e => (none, some ("failed to marshal minio service: " ++ e))
  | .ok serviceDoc =>
  match env.encode (Resource.minioJob ns) with
  | .error e => (none, some ("failed to marshal minio job: " ++ e))
  | .ok jobDoc =>
    (some [("minio-configmap.yaml", configMapDoc),
        ("minio-statefulset.yaml", statefulsetDoc),
        ("minio-service.yaml", serviceDoc), ("minio-job.yaml", jobDoc)],
      none)

/-! ## Dispatch over the eight ensure-operations -/

/-- Name of one of the eight ensure-operations. -/
inductive OpName where
  | jwt
  | pg
  | sharedPassword
  | s3
  | minioConfigMap
  | minioStatefulset
  | minioService
  | minioJob
deriving DecidableEq, Repr

/-- View an options-less ensure result as an `EnsureResultP` (the options pass
through untouched, as in the source, where those functions never see them). -/
def EnsureResult.withOpts (r : EnsureResult) (deployOptions : DeployOptions) :
    EnsureResultP :=
  ⟨r.res, deployOptions, r.world, r.events⟩

/-- Run the ensure-operation named `op` with the source's own calling
conventions. -/
def runEnsure (op : OpName) (env : Env) (deployOptions : DeployOptions)
    (w : World) : EnsureResultP :=
  match op with
  | .jwt => (ensureJWTSessionSecret env deployOptions.Namespace w).withOpts deployOptions
  | .pg => (ensurePostgresSecret env deployOptions w).withOpts deployOptions
  | .sharedPassword => ensureSharedPasswordSecret env deployOptions w
  | .s3 => (ensureS3Secret env deployOptions.Namespace w).withOpts deployOptions
  | .minioConfigMap => (ensureMinioConfigMap env deployOptions.Namespace w).withOpts deployOptions
  | .minioStatefulset => (ensureMinioStatefulset env deployOptions.Namespace w).withOpts deployOptions
  | .minioService => (ensureMinioService env deployOptions.Namespace w).withOpts deployOptions
  | .minioJob => (ensureMinioJob env deployOptions.Namespace w).withOpts deployOptions

/-- The fixed `ClusterResourceKey` each ensure-operation queries and creates. -/
def keyOf (op : OpName) (ns : String) : ClusterResourceKey :=
  match op with
  | .jwt => ⟨Kind.secret, ns, "kotsadm-session"⟩
  | .pg => ⟨Kind.secret, ns, "kotsadm-postgres"⟩
  | .sharedPassword => ⟨Kind.secret, ns, "kotsadm-password"⟩
  | .s3 => ⟨Kind.secret, ns, "kotsadm-minio"⟩
  | .minioConfigMap => ⟨Kind.configMap, ns, "kotsadm-minio"⟩
  | .minioStatefulset => ⟨Kind.statefulSet, ns, "kotsadm-minio"⟩
  | .minioService => ⟨Kind.service, ns, "kotsadm-minio"⟩
  | .minioJob => ⟨Kind.job, ns, "kotsadm-minio"⟩

/-- The get-failure wrap message of each ensure-operation. -/
def getMsgOf (op : OpName) : String :=
  match op with
  | .jwt => "failed to get existing session secret"
  | .pg => "failed to get existing postgres secret"
  | .sharedPassword => "failed to get existing password secret"
  | .s3 => "failed to get existing s3 secret"
  | .minioConfigMap => "failed to get existing config map"
  | .minioStatefulset => "failed to get existing statefulset"
  | .minioService => "failed to get existing service"
  | .minioJob => "failed to get existing job"

/-! ## Event observations -/

/-- Is this event a create call (successful or not) for key `k`? -/
def Event.isCreateFor (k : ClusterResourceKey) : Event → Bool
  | .createE k' _ => k' = k
  | _ => false

/-- Is this event a create call at all? -/
def Event.isCreate : Event → Bool
  | .createE _ _ => true
  | _ => false

/-- Is this event a query or create call for key `k`? -/
def Event.isTouchFor (k : ClusterResourceKey) : Event → Bool
  | .getE k' => k' = k
  | .createE k' _ => k' = k
  | _ => false

/-- Is this event a bcrypt invocation? -/
def Event.isBcrypt : Event → Bool
  | .bcryptE _ => true
  | _ => false

/-- Number of successful create calls for key `k` in an event list. -/
def createdCount (k : ClusterResourceKey) (evs : List Event) : Nat :=
  (evs.filter (fun e => e = Event.createE k true)).length

/-- Number of bcrypt invocations in an event list. -/
def bcryptCount (evs : List Event) : Nat :=
  (evs.filter Event.isBcrypt).length

/-! ## Characterization of `ensureCore` -/

theorem ensureCore_getErr (env : Env) (k : ClusterResourceKey)
    (gm cm : String) (build : World → Resource × World × List Event) (w : World)
    (e : String) (h : env.getErr k = some e) :
    ensureCore env k gm cm build w = ⟨.error (gm ++ ": " ++ e), w, [.getE k]⟩ := by
  simp [ensureCore, getResource, h]

theorem ensureCore_found (env : Env) (k : ClusterResourceKey)
    (gm cm : String) (build : World → Resource × World × List Event) (w : World)
    (r : Resource) (hg : env.getErr k = none)
    (hl : lookupResource k w.resources = some r) :
    ensureCore env k gm cm build w = ⟨.ok (), w, [.getE k]⟩ := by
  simp [ensureCore, getResource, hg, hl]

theorem ensureCore_createFail (env : Env) (k : ClusterResourceKey)
    (gm cm : String) (build : World → Resource × World × List Event) (w : World)
    (e : String) (r : Resource) (w₁ : World) (evs : List Event)
    (hg : env.getErr k = none) (hl : lookupResource k w.resources = none)
    (hc : env.createErr k = some e) (hb : build w = (r, w₁, evs)) :
    ensureCore env k gm cm build w =
      ⟨.error (cm ++ ": " ++ e), w₁, .getE k :: evs ++ [.createE k false]⟩ := by
  simp [ensureCore, getResource, hg, hl, hc, hb]

theorem ensureCore_createOk (env : Env) (k : ClusterResourceKey)
    (gm cm : String) (build : World → Resource × World × List Event) (w : World)
    (r : Resource) (w₁ : World) (evs : List Event)
    (hg : env.getErr k = none) (hl : lookupResource k w.resources = none)
    (hc : env.createErr k = none) (hb : build w = (r, w₁, evs)) :
    ensureCore env k gm cm build w =
      ⟨.ok (), { w₁ with resources := (k, r) :: w₁.resources },
        .getE k :: evs ++ [.createE k true]⟩ := by
  simp [ensureCore, getResource, hg, hl, hc, hb]

theorem lookupResource_cons_self (k : ClusterResourceKey) (r : Resource)
    (rest : List (ClusterResourceKey × Resource)) :
    lookupResource k ((k, r) :: rest) = some r := by
  simp [lookupResource]

/-- A build function that only draws uuids leaves the cluster untouched. -/
def BuildPreserves (build : World → Resource × World × List Event) : Prop :=
  ∀ w', ((build w').2.1).resources = w'.resources

/-- A build function that only draws uuids emits only `uuidE` events. -/
def BuildUuidOnly (build : World → Resource × World × List Event) : Prop :=
  ∀ w' ev, ev ∈ (build w').2.2 → ev = Event.uuidE

/-- Running `ensureCore` a second time on the world the first run produced
changes nothing further in the cluster. -/
theorem ensureCore_resources_idem (env : Env) (k : ClusterResourceKey)
    (gm cm : String) (build : World → Resource × World × List Event) (w : World)
    (hres : BuildPreserves build) :
    (ensureCore env k gm cm build
        (ensureCore env k gm cm build w).world).world.resources
      = (ensureCore env k gm cm build w).world.resources := by
  rcases hg : env.getErr k with _ | e
  · rcases hl : lookupResource k w.resources with _ | r
    · rcases hc : env.createErr k with _ | e
      · rcases hb : build w with ⟨r, w₁, evs⟩
        rw [ensureCore_createOk env k gm cm build w r w₁ evs hg hl hc hb]
        have hlook :
            lookupResource k
              ({ w₁ with resources := (k, r) :: w₁.resources } : World).resources
              = some r := lookupResource_cons_self k r w₁.resources
        rw [ensureCore_found env k gm cm build _ r hg hlook]
      · rcases hb : build w with ⟨r, w₁, evs⟩
        rw [ensureCore_createFail env k gm cm build w e r w₁ evs hg hl hc hb]
        have hw₁ : w₁.resources = w.resources := by
          have h := hres w; rw [hb] at h; exact h
        rcases hb2 : build w₁ with ⟨r₂, w₂, evs₂⟩
        have hl2 : lookupResource k w₁.resources = none := by rw [hw₁]; exact hl
        rw [ensureCore_createFail env k gm cm build w₁ e r₂ w₂ evs₂ hg hl2 hc hb2]
        have hw₂ : w₂.resources = w₁.resources := by
          have h := hres w₁; rw [hb2] at h; exact h
        simpa using hw₂
    · rw [ensureCore_found env k gm cm build w r hg hl,
        ensureCore_found env k gm cm build w r hg hl]
  · rw [ensureCore_getErr env k gm cm build w e hg,
      ensureCore_getErr env k gm cm build w e hg]

/-- A create call appears in the events only for the operation's own key, and
only when the query reported genuinely not-found. -/
theorem ensureCore_createE_mem (env : Env) (k : ClusterResourceKey)
    (gm cm : String) (build : World → Resource × World × List Event) (w : World)
    (k' : ClusterResourceKey) (b : Bool) (hbe : BuildUuidOnly build)
    (h : Event.createE k' b ∈ (ensureCore env k gm cm build w).events) :
    k' = k ∧ env.getErr k = none ∧ lookupResource k w.resources = none := by
  rcases hg : env.getErr k with _ | e
  · rcases hl : lookupResource k w.resources with _ | r
    · rcases hc : env.createErr k with _ | e
      · rcases hb : build w with ⟨r, w₁, evs⟩
        rw [ensureCore_createOk env k gm cm build w r w₁ evs hg hl hc hb] at h
        simp only [List.mem_cons, List.mem_append, List.mem_singleton] at h
        refine ⟨?_, rfl, rfl⟩
        rcases h with h | h
        · rcases h with h | h
          · exact absurd h (by simp)
          · have hu := hbe w (Event.createE k' b) (by rw [hb]; exact h)
            exact absurd hu (by simp)
        · rcases h with h | h
          · injection h with h1 h2
          · simp at h
      · rcases hb : build w with ⟨r, w₁, evs⟩
        rw [ensureCore_createFail env k gm cm build w e r w₁ evs hg hl hc hb] at h
        simp only [List.mem_cons, List.mem_append, List.mem_singleton] at h
        refine ⟨?_, rfl, rfl⟩
        rcases h with h | h
        · rcases h with h | h
          · exact absurd h (by simp)
          · have hu := hbe w (Event.createE k' b) (by rw [hb]; exact h)
            exact absurd hu (by simp)
        · rcases h with h | h
          · injection h with h1 h2
          · simp at h
    · rw [ensureCore_found env k gm cm build w r hg hl] at h
      simp at h
  · rw [ensureCore_getErr env k gm cm build w e hg] at h
    simp at h

/-- One `ensureCore` run performs at most one successful create. -/
theorem ensureCore_createdCount_le_one (env : Env) (k : ClusterResourceKey)
    (gm cm : String) (build : World → Resource × World × List Event) (w : World)
    (k' : ClusterResourceKey) (hbe : BuildUuidOnly build) :
    createdCount k' (ensureCore env k gm cm build w).events ≤ 1 := by
  rcases hg : env.getErr k with _ | e
  · rcases hl : lookupResource k w.resources with _ | r
    · rcases hc : env.createErr k with _ | e
      · rcases hb : build w with ⟨r, w₁, evs⟩
        rw [ensureCore_createOk env k gm cm build w r w₁ evs hg hl hc hb]
        have hevs : evs.filter (fun e => e = Event.createE k' true) = [] := by
          apply List.filter_eq_nil.mpr
          intro ev hev
          have := hbe w ev (by rw [hb]; exact hev)
          simp [this]
        simp only [createdCount, List.filter_cons, List.filter_append, hevs]
        split <;> simp_all [List.filter_cons]
        <;> split <;> simp_all
      · rcases hb : build w with ⟨r, w₁, evs⟩
        rw [ensureCore_createFail env k gm cm build w e r w₁ evs hg hl hc hb]
        have hevs : evs.filter (fun e => e = Event.createE k' true) = [] := by
          apply List.filter_eq_nil.mpr
          intro ev hev
          have := hbe w ev (by rw [hb]; exact hev)
          simp [this]
        simp only [createdCount, List.filter_cons, List.filter_append, hevs]
        split <;> simp_all [List.filter_cons]
        <;> split <;> simp_all
    · rw [ensureCore_found env k gm cm build w r hg hl]
      simp [createdCount]
  · rw [ensureCore_getErr env k gm cm build w e hg]
    simp [createdCount]

/-- If an `ensureCore` run did create its resource, the key is now mapped. -/
theorem ensureCore_created_lookup (env : Env) (k : ClusterResourceKey)
    (gm cm : String) (build : World → Resource × World × List Event) (w : World)
    (hbe : BuildUuidOnly build)
    (h : 1 ≤ createdCount k (ensureCore env k gm cm build w).events) :
    ∃ r, lookupResource k (ensureCore env k gm cm build w).world.resources
      = some r := by
  rcases hg : env.getErr k with _ | e
  · rcases hl : lookupResource k w.resources with _ | r
    · rcases hc : env.createErr k with _ | e
      · rcases hb : build w with ⟨r, w₁, evs⟩
        rw [ensureCore_createOk env k gm cm build w r w₁ evs hg hl hc hb]
        exact ⟨r, lookupResource_cons_self k r w₁.resources⟩
      · rcases hb : build w with ⟨r, w₁, evs⟩
        rw [ensureCore_createFail env k gm cm build w e r w₁ evs hg hl hc hb] at h
        have hevs : evs.filter (fun e => e = Event.createE k true) = [] := by
          apply List.filter_eq_nil.mpr
          intro ev hev
          have := hbe w ev (by rw [hb]; exact hev)
          simp [this]
        simp [createdCount, List.filter_cons, List.filter_append, hevs] at h
    · rw [ensureCore_found env k gm cm build w r hg hl] at h
      simp [createdCount] at h
  · rw [ensureCore_getErr env k gm cm build w e hg] at h
    simp [createdCount] at h

/-- A run whose query found the resource performed exactly one query and
nothing else. -/
theorem ensureCore_found_events (env : Env) (k : ClusterResourceKey)
    (gm cm : String) (build : World → Resource × World × List Event) (w : World)
    (r : Resource) (hg : env.getErr k = none)
    (hl : lookupResource k w.resources = some r) :
    (ensureCore env k gm cm build w).events = [.getE k] := by
  rw [ensureCore_found env k gm cm build w r hg hl]

/-! ## Facts about the eight ensure-operations, via the dispatch -/

@[simp] theorem withOpts_res (r : EnsureResult) (o : DeployOptions) :
    (r.withOpts o).res = r.res := rfl

@[simp] theorem withOpts_opts (r : EnsureResult) (o : DeployOptions) :
    (r.withOpts o).opts = o := rfl

@[simp] theorem withOpts_world (r : EnsureResult) (o : DeployOptions) :
    (r.withOpts o).world = r.world := rfl

@[simp] theorem withOpts_events (r : EnsureResult) (o : DeployOptions) :
    (r.withOpts o).events = r.events := rfl

/-- Distinct ensure-operations always manage distinct cluster keys: the fixed
names and kinds separate them. -/
theorem keyOf_inj (op₁ op₂ : OpName) (ns : String)
    (h : keyOf op₁ ns = keyOf op₂ ns) : op₁ = op₂ := by
  cases op₁ <;> cases op₂ <;> simp_all [keyOf]

/-- No ensure-operation changes the namespace field of the options. -/
theorem runEnsure_opts_Namespace (op : OpName) (env : Env)
    (opts : DeployOptions) (w : World) :
    (runEnsure op env opts w).opts.Namespace = opts.Namespace := by
  cases op <;>
    simp only [runEnsure, withOpts_opts] <;>
    try rfl
  case sharedPassword =>
    by_cases hsp : opts.SharedPassword = ""
    · simp only [ensureSharedPasswordSecret, hsp, if_true]
      rcases hpp : env.promptPassword with e | pw
      · rfl
      · rcases hbc : env.bcrypt pw with e | hash <;> simp [hbc]
    · simp only [ensureSharedPasswordSecret, hsp, if_false]
      rcases hbc : env.bcrypt opts.SharedPassword with e | hash <;> simp [hbc]

/-- Any create call recorded by an ensure-operation is for that operation's
own key, and happened only because the query reported a genuine not-found. -/
theorem runEnsure_createE_mem (op : OpName) (env : Env) (opts : DeployOptions)
    (w : World) (k' : ClusterResourceKey) (b : Bool)
    (h : Event.createE k' b ∈ (runEnsure op env opts w).events) :
    k' = keyOf op opts.Namespace ∧ env.getErr k' = none ∧
      lookupResource k' w.resources = none := by
  cases op
  case sharedPassword =>
    simp only [runEnsure] at h
    by_cases hsp : opts.SharedPassword = ""
    · simp only [ensureSharedPasswordSecret, hsp, if_true] at h
      rcases hpp : env.promptPassword with e | pw
      · simp [hpp] at h
      · simp only [hpp] at h
        rcases hbc : env.bcrypt pw with e | hash
        · simp [hbc] at h
        · simp only [hbc] at h
          simp only [List.mem_cons] at h
          rcases h with h | h
          · exact absurd h (by simp)
          rcases h with h | h
          · exact absurd h (by simp)
          have hc := ensureCore_createE_mem env _ _ _ _ w k' b
            (by intro w' ev hev; simp at hev) h
          obtain ⟨hk, hg, hl⟩ := hc
          subst hk
          exact ⟨by simp [keyOf], hg, hl⟩
    · simp only [ensureSharedPasswordSecret, hsp, if_false] at h
      rcases hbc : env.bcrypt opts.SharedPassword with e | hash
      · simp [hbc] at h
      · simp only [hbc] at h
        simp only [List.mem_cons] at h
        rcases h with h | h
        · exact absurd h (by simp)
        have hc := ensureCore_createE_mem env _ _ _ _ w k' b
          (by intro w' ev hev; simp at hev) h
        obtain ⟨hk, hg, hl⟩ := hc
        subst hk
        exact ⟨by simp [keyOf], hg, hl⟩
  all_goals
    first
    | (simp only [runEnsure, withOpts_events, ensureJWTSessionSecret,
        ensurePostgresSecret, ensureS3Secret, ensureMinioConfigMap,
        ensureMinioStatefulset, ensureMinioService, ensureMinioJob] at h
       obtain ⟨hk, hg, hl⟩ := ensureCore_createE_mem env _ _ _ _ w k' b
         (by intro w' ev hev; simp [nextUUID] at hev; all_goals exact hev) h
       subst hk
       exact ⟨by simp [keyOf], hg, hl⟩)

/-! ### Characterization of `ensureSharedPasswordSecret` -/

theorem sp_prompt_err (env : Env) (opts : DeployOptions) (w : World) (e : String)
    (hsp : opts.SharedPassword = "") (hpp : env.promptPassword = .error e) :
    ensureSharedPasswordSecret env opts w =
      ⟨.error ("failed to prompt for shared password: " ++ e), opts, w,
        [.promptE]⟩ := by
  simp [ensureSharedPasswordSecret, hsp, hpp]

theorem sp_bcrypt_err_prompt (env : Env) (opts : DeployOptions) (w : World)
    (pw e : String) (hsp : opts.SharedPassword = "")
    (hpp : env.promptPassword = .ok pw) (hbc : env.bcrypt pw = .error e) :
    ensureSharedPasswordSecret env opts w =
      ⟨.error ("failed to bcrypt shared password: " ++ e),
        { opts with SharedPassword := pw }, w, [.promptE, .bcryptE pw]⟩ := by
  simp [ensureSharedPasswordSecret, hsp, hpp, hbc]

theorem sp_core_prompt (env : Env) (opts : DeployOptions) (w : World)
    (pw hash : String) (hsp : opts.SharedPassword = "")
    (hpp : env.promptPassword = .ok pw) (hbc : env.bcrypt pw = .ok hash) :
    ensureSharedPasswordSecret env opts w =
      ⟨(ensureCore env ⟨Kind.secret, opts.Namespace, "kotsadm-password"⟩
          "failed to get existing password secret" "failed to create password secret"
          (fun w => (Resource.sharedPasswordSecret opts.Namespace hash, w, [])) w).res,
        { opts with SharedPassword := pw },
        (ensureCore env ⟨Kind.secret, opts.Namespace, "kotsadm-password"⟩
          "failed to get existing password secret" "failed to create password secret"
          (fun w => (Resource.sharedPasswordSecret opts.Namespace hash, w, [])) w).world,
        .promptE :: .bcryptE pw ::
          (ensureCore env ⟨Kind.secret, opts.Namespace, "kotsadm-password"⟩
            "failed to get existing password secret" "failed to create password secret"
            (fun w => (Resource.sharedPasswordSecret opts.Namespace hash, w, [])) w).events⟩ := by
  simp [ensureSharedPasswordSecret, hsp, hpp, hbc]

theorem sp_bcrypt_err (env : Env) (opts : DeployOptions) (w : World) (e : String)
    (hsp : ¬ opts.SharedPassword = "")
    (hbc : env.bcrypt opts.SharedPassword = .error e) :
    ensureSharedPasswordSecret env opts w =
      ⟨.error ("failed to bcrypt shared password: " ++ e), opts, w,
        [.bcryptE opts.SharedPassword]⟩ := by
  simp [ensureSharedPasswordSecret, hsp, hbc]

theorem sp_core (env : Env) (opts : DeployOptions) (w : World) (hash : String)
    (hsp : ¬ opts.SharedPassword = "")
    (hbc : env.bcrypt opts.SharedPassword = .ok hash) :
    ensureSharedPasswordSecret env opts w =
      ⟨(ensureCore env ⟨Kind.secret, opts.Namespace, "kotsadm-password"⟩
          "failed to get existing password secret" "failed to create password secret"
          (fun w => (Resource.sharedPasswordSecret opts.Namespace hash, w, [])) w).res,
        opts,
        (ensureCore env ⟨Kind.secret, opts.Namespace, "kotsadm-password"⟩
          "failed to get existing password secret" "failed to create password secret"
          (fun w => (Resource.sharedPasswordSecret opts.Namespace hash, w, [])) w).world,
        .bcryptE opts.SharedPassword ::
          (ensureCore env ⟨Kind.secret, opts.Namespace, "kotsadm-password"⟩
            "failed to get existing password secret" "failed to create password secret"
            (fun w => (Resource.sharedPasswordSecret opts.Namespace hash, w, [])) w).events⟩ := by
  simp [ensureSharedPasswordSecret, hsp, hbc]

/-- Invoking an ensure-operation a second time, on the options and world the
first invocation produced, leaves the cluster exactly as the first
invocation left it. -/
theorem runEnsure_resources_idem (op : OpName) (env : Env)
    (opts : DeployOptions) (w : World) :
    (runEnsure op env (runEnsure op env opts w).opts
        (runEnsure op env opts w).world).world.resources
      = (runEnsure op env opts w).world.resources := by
  cases op
  case sharedPassword =>
    simp only [runEnsure]
    by_cases hsp : opts.SharedPassword = ""
    · rcases hpp : env.promptPassword with e | pw
      · simp [sp_prompt_err env opts w e hsp hpp]
      · rcases hbc : env.bcrypt pw with e | hash
        · simp only [sp_bcrypt_err_prompt env opts w pw e hsp hpp hbc]
          by_cases hpw : pw = ""
          · simp [sp_bcrypt_err_prompt env { opts with SharedPassword := pw } w
              pw e (by simp [hpw]) hpp hbc]
          · simp [sp_bcrypt_err env { opts with SharedPassword := pw } w e
              (by simp [hpw]) (by simpa using hbc)]
        · simp only [sp_core_prompt env opts w pw hash hsp hpp hbc]
          by_cases hpw : pw = ""
          · simp only [sp_core_prompt env { opts with SharedPassword := pw } _
              pw hash (by simp [hpw]) hpp hbc]
            refine ensureCore_resources_idem env _ _ _ _ w ?_
            intro w'
            rfl
          · simp only [sp_core env { opts with SharedPassword := pw } _ hash
              (by simp [hpw]) (by simpa using hbc)]
            refine ensureCore_resources_idem env _ _ _ _ w ?_
            intro w'
            rfl
    · rcases hbc : env.bcrypt opts.SharedPassword with e | hash
      · simp [sp_bcrypt_err env opts w e hsp hbc]
      · simp only [sp_core env opts w hash hsp hbc]
        simp only [sp_core env opts _ hash hsp hbc]
        refine ensureCore_resources_idem env _ _ _ _ w ?_
        intro w'
        rfl
  all_goals
    first
    | (simp only [runEnsure, withOpts_opts, withOpts_world,
        ensureJWTSessionSecret, ensurePostgresSecret, ensureS3Secret,
        ensureMinioConfigMap, ensureMinioStatefulset, ensureMinioService,
        ensureMinioJob]
       refine ensureCore_resources_idem env _ _ _ _ w ?_
       intro w'
       rfl)

theorem createdCount_append (k : ClusterResourceKey) (a b : List Event) :
    createdCount k (a ++ b) = createdCount k a + createdCount k b := by
  simp [createdCount, List.filter_append]

theorem createdCount_pos_mem (k : ClusterResourceKey) (evs : List Event)
    (h : 1 ≤ createdCount k evs) : Event.createE k true ∈ evs := by
  by_contra hmem
  have hnil : evs.filter (fun e => e = Event.createE k true) = [] := by
    apply List.filter_eq_nil_iff.mpr
    intro a ha
    simp only [decide_eq_true_eq]
    intro hEq
    exact hmem (hEq ▸ ha)
  simp [createdCount, hnil] at h

/-- A single ensure-operation performs at most one successful create, for any
key. -/
theorem runEnsure_createdCount_le_one (op : OpName) (env : Env)
    (opts : DeployOptions) (w : World) (k' : ClusterResourceKey) :
    createdCount k' (runEnsure op env opts w).events ≤ 1 := by
  cases op
  case sharedPassword =>
    simp only [runEnsure]
    by_cases hsp : opts.SharedPassword = ""
    · rcases hpp : env.promptPassword with e | pw
      · simp [sp_prompt_err env opts w e hsp hpp, createdCount]
      · rcases hbc : env.bcrypt pw with e | hash
        · simp [sp_bcrypt_err_prompt env opts w pw e hsp hpp hbc, createdCount]
        · simp only [sp_core_prompt env opts w pw hash hsp hpp hbc]
          have hle := ensureCore_createdCount_le_one env
            ⟨Kind.secret, opts.Namespace, "kotsadm-password"⟩
            "failed to get existing password secret" "failed to create password secret"
            (fun w => (Resource.sharedPasswordSecret opts.Namespace hash, w, [])) w
            k' (by intro w' ev hev; simp at hev)
          simpa [createdCount] using hle
    · rcases hbc : env.bcrypt opts.SharedPassword with e | hash
      · simp [sp_bcrypt_err env opts w e hsp hbc, createdCount]
      · simp only [sp_core env opts w hash hsp hbc]
        have hle := ensureCore_createdCount_le_one env
          ⟨Kind.secret, opts.Namespace, "kotsadm-password"⟩
          "failed to get existing password secret" "failed to create password secret"
          (fun w => (Resource.sharedPasswordSecret opts.Namespace hash, w, [])) w
          k' (by intro w' ev hev; simp at hev)
        simpa [createdCount] using hle
  all_goals
    first
    | (simp only [runEnsure, withOpts_events, ensureJWTSessionSecret,
        ensurePostgresSecret, ensureS3Secret, ensureMinioConfigMap,
        ensureMinioStatefulset, ensureMinioService, ensureMinioJob]
       exact ensureCore_createdCount_le_one env _ _ _ _ w k'
         (by intro w' ev hev; simp [nextUUID] at hev; all_goals exact hev))

/-- If an ensure-operation did create its resource, the key maps to a
resource in the world it leaves behind. -/
theorem runEnsure_created_lookup (op : OpName) (env : Env)
    (opts : DeployOptions) (w : World)
    (h : 1 ≤ createdCount (keyOf op opts.Namespace)
      (runEnsure op env opts w).events) :
    ∃ r, lookupResource (keyOf op opts.Namespace)
      (runEnsure op env opts w).world.resources = some r := by
  cases op
  case sharedPassword =>
    simp only [runEnsure, keyOf] at h ⊢
    by_cases hsp : opts.SharedPassword = ""
    · rcases hpp : env.promptPassword with e | pw
      · simp [sp_prompt_err env opts w e hsp hpp, createdCount] at h
      · rcases hbc : env.bcrypt pw with e | hash
        · simp [sp_bcrypt_err_prompt env opts w pw e hsp hpp hbc, createdCount] at h
        · simp only [sp_core_prompt env opts w pw hash hsp hpp hbc] at h ⊢
          refine ensureCore_created_lookup env _ _ _ _ w
            (by intro w' ev hev; simp at hev) ?_
          simpa [createdCount] using h
    · rcases hbc : env.bcrypt opts.SharedPassword with e | hash
      · simp [sp_bcrypt_err env opts w e hsp hbc, createdCount] at h
      · simp only [sp_core env opts w hash hsp hbc] at h ⊢
        refine ensureCore_created_lookup env _ _ _ _ w
          (by intro w' ev hev; simp at hev) ?_
        simpa [createdCount] using h
  all_goals
    first
    | (simp only [runEnsure, withOpts_events, withOpts_world, keyOf,
        ensureJWTSessionSecret, ensurePostgresSecret, ensureS3Secret,
        ensureMinioConfigMap, ensureMinioStatefulset, ensureMinioService,
        ensureMinioJob] at h ⊢
       exact ensureCore_created_lookup env _ _ _ _ w
         (by intro w' ev hev; simp [nextUUID] at hev; all_goals exact hev) h)

/-! ## Concrete data for witnesses -/

/-- A concrete injective serialization used by witness environments. -/
def encodeModel : Resource → String
  | .jwtSecret ns key => "jwt:" ++ ns ++ ":" ++ key
  | .pgSecret ns password => "pg:" ++ ns ++ ":" ++ password
  | .sharedPasswordSecret ns bcryptPassword => "sp:" ++ ns ++ ":" ++ bcryptPassword
  | .s3Secret ns accessKey secretKey =>
      "s3:" ++ ns ++ ":" ++ accessKey ++ ":" ++ secretKey
  | .minioConfigMap ns => "cm:" ++ ns
  | .minioStatefulset ns => "sts:" ++ ns
  | .minioService ns => "svc:" ++ ns
  | .minioJob ns => "job:" ++ ns

/-- A benign environment: deterministic uuid stream, no injected failures. -/
def envW : Env :=
  { uuidStream := fun n => "uuid-" ++ toString n
    getErr := fun _ => none
    createErr := fun _ => none
    bcrypt := fun pw => .ok ("hash-" ++ pw)
    promptPassword := .ok "prompted-pw"
    encode := fun r => .ok (encodeModel r) }

/-- Options with every credential field supplied. -/
def optsFull : DeployOptions :=
  ⟨"ns1", "jwt0", "pg0", "pw123", "bc0", "ak0", "sk0"⟩

/-- Options with the generated credential fields empty. -/
def optsEmpty : DeployOptions :=
  ⟨"ns1", "", "pg0", "pw123", "", "", ""⟩

/-- An empty cluster. -/
def w0 : World := ⟨[], 0⟩

/-- A cluster in which the s3 secret already exists. -/
def w1 : World :=
  ⟨[(⟨Kind.secret, "ns1", "kotsadm-minio"⟩, Resource.s3Secret "ns1" "a" "b")], 0⟩

/-! ## Claim theorems -/

/-- C1: every ensure-operation is idempotent: run twice in succession against
the same cluster, the second run leaves the cluster exactly as the first did;
when the query finds the resource present the run performs no create call; and
no two ensure-operations for the same `ClusterResourceKey` (which forces them
to be the same operation) together perform two successful creations. -/
theorem ensure_idempotent_no_double_create (op op₂ : OpName) (env : Env)
    (opts : DeployOptions) (w : World) :
    (runEnsure op env (runEnsure op env opts w).opts
        (runEnsure op env opts w).world).world.resources
      = (runEnsure op env opts w).world.resources
    ∧ (∀ r, getResource env (keyOf op opts.Namespace) w = .found r →
        ∀ b, Event.createE (keyOf op opts.Namespace) b ∉
          (runEnsure op env opts w).events)
    ∧ (keyOf op₂ opts.Namespace = keyOf op opts.Namespace →
        createdCount (keyOf op opts.Namespace)
          ((runEnsure op env opts w).events ++
            (runEnsure op₂ env (runEnsure op env opts w).opts
              (runEnsure op env opts w).world).events) ≤ 1) := by
  refine ⟨runEnsure_resources_idem op env opts w, ?_, ?_⟩
  · intro r hfound b hmem
    obtain ⟨hk, hg, hl⟩ := runEnsure_createE_mem op env opts w _ b hmem
    simp [getResource, hg, hl] at hfound
  · intro hkey
    have hop := keyOf_inj op₂ op opts.Namespace hkey
    subst hop
    rw [createdCount_append]
    rcases Nat.lt_or_ge
      (createdCount (keyOf op₂ opts.Namespace) (runEnsure op₂ env opts w).events)
      1 with h0 | h1
    · have h0' : createdCount (keyOf op₂ opts.Namespace)
          (runEnsure op₂ env opts w).events = 0 := Nat.lt_one_iff.mp h0
      rw [h0']
      simpa using runEnsure_createdCount_le_one op₂ env
        (runEnsure op₂ env opts w).opts (runEnsure op₂ env opts w).world
        (keyOf op₂ opts.Namespace)
    · obtain ⟨r, hlr⟩ := runEnsure_created_lookup op₂ env opts w h1
      have h2 : createdCount (keyOf op₂ opts.Namespace)
          (runEnsure op₂ env (runEnsure op₂ env opts w).opts
            (runEnsure op₂ env opts w).world).events = 0 := by
        by_contra hne
        have hpos := Nat.one_le_iff_ne_zero.mpr hne
        have hmem := createdCount_pos_mem _ _ hpos
        obtain ⟨hk, hg, hl⟩ := runEnsure_createE_mem op₂ env
          (runEnsure op₂ env opts w).opts (runEnsure op₂ env opts w).world
          _ true hmem
        rw [hl] at hlr
        cases hlr
      rw [h2]
      have hle := runEnsure_createdCount_le_one op₂ env opts w
        (keyOf op₂ opts.Namespace)
      omega

/-- Witness for C1: the s3-secret ensure-operation, against a cluster where
the s3 secret already exists. -/
theorem ensure_idempotent_no_double_create_witness :
    (runEnsure .s3 envW (runEnsure .s3 envW optsFull w1).opts
        (runEnsure .s3 envW optsFull w1).world).world.resources
      = (runEnsure .s3 envW optsFull w1).world.resources
    ∧ (∀ r, getResource envW (keyOf .s3 optsFull.Namespace) w1 = .found r →
        ∀ b, Event.createE (keyOf .s3 optsFull.Namespace) b ∉
          (runEnsure .s3 envW optsFull w1).events)
    ∧ (keyOf .s3 optsFull.Namespace = keyOf .s3 optsFull.Namespace →
        createdCount (keyOf .s3 optsFull.Namespace)
          ((runEnsure .s3 envW optsFull w1).events ++
            (runEnsure .s3 envW (runEnsure .s3 envW optsFull w1).opts
              (runEnsure .s3 envW optsFull w1).world).events) ≤ 1) :=
  ensure_idempotent_no_double_create .s3 .s3 envW optsFull w1

/-- C2: when the existence query of any ensure-operation fails with an error
that is not a well-formed not-found, the operation performs no create, leaves
the cluster untouched and returns an error; if the query was actually reached,
that error is the query's error wrapped with the operation's message. Dually,
a create call only ever happens after the query reported not-found. -/
theorem ensure_not_found_discrimination (op : OpName) (env : Env)
    (opts : DeployOptions) (w : World) :
    (∀ e, env.getErr (keyOf op opts.Namespace) = some e →
      (∃ e', (runEnsure op env opts w).res = .error e')
      ∧ (∀ k' b, Event.createE k' b ∉ (runEnsure op env opts w).events)
      ∧ (runEnsure op env opts w).world.resources = w.resources
      ∧ (Event.getE (keyOf op opts.Namespace) ∈ (runEnsure op env opts w).events →
          (runEnsure op env opts w).res = .error (getMsgOf op ++ ": " ++ e)))
    ∧ (∀ k' b, Event.createE k' b ∈ (runEnsure op env opts w).events →
        getResource env k' w = .notFound) := by
  constructor
  · intro e hg
    cases op
    case sharedPassword =>
      simp only [runEnsure, keyOf] at hg ⊢
      by_cases hsp : opts.SharedPassword = ""
      · rcases hpp : env.promptPassword with e₂ | pw
        · simp only [sp_prompt_err env opts w e₂ hsp hpp]
          exact ⟨⟨_, rfl⟩, by simp, by trivial, by intro hmem; simp at hmem⟩
        · rcases hbc : env.bcrypt pw with e₂ | hash
          · simp only [sp_bcrypt_err_prompt env opts w pw e₂ hsp hpp hbc]
            exact ⟨⟨_, rfl⟩, by simp, by trivial, by intro hmem; simp at hmem⟩
          · simp only [sp_core_prompt env opts w pw hash hsp hpp hbc]
            rw [ensureCore_getErr env _ _ _ _ w e hg]
            exact ⟨⟨_, rfl⟩, by simp, rfl, fun _ => rfl⟩
      · rcases hbc : env.bcrypt opts.SharedPassword with e₂ | hash
        · simp only [sp_bcrypt_err env opts w e₂ hsp hbc]
          exact ⟨⟨_, rfl⟩, by simp, by trivial, by intro hmem; simp at hmem⟩
        · simp only [sp_core env opts w hash hsp hbc]
          rw [ensureCore_getErr env _ _ _ _ w e hg]
          exact ⟨⟨_, rfl⟩, by simp, rfl, fun _ => rfl⟩
    all_goals
      first
      | (simp only [runEnsure, withOpts_res, withOpts_events, withOpts_world,
          keyOf, ensureJWTSessionSecret, ensurePostgresSecret, ensureS3Secret,
          ensureMinioConfigMap, ensureMinioStatefulset, ensureMinioService,
          ensureMinioJob] at hg ⊢
         rw [ensureCore_getErr env _ _ _ _ w e hg]
         exact ⟨⟨_, rfl⟩, by simp, rfl, fun _ => rfl⟩)
  · intro k' b hmem
    obtain ⟨hk, hg, hl⟩ := runEnsure_createE_mem op env opts w k' b hmem
    simp [getResource, hg, hl]

/-- An environment whose query for the session secret fails with an error that
is not a not-found. -/
def envGetErr : Env :=
  { envW with
      getErr := fun k =>
        if k = ⟨Kind.secret, "ns1", "kotsadm-session"⟩ then some "boom" else none }

/-- Witness for C2: the jwt-session ensure-operation against a failing query. -/
theorem ensure_not_found_discrimination_witness :
    envGetErr.getErr (keyOf .jwt optsFull.Namespace) = some "boom"
    ∧ ((∃ e', (runEnsure .jwt envGetErr optsFull w0).res = .error e')
      ∧ (∀ k' b, Event.createE k' b ∉ (runEnsure .jwt envGetErr optsFull w0).events)
      ∧ (runEnsure .jwt envGetErr optsFull w0).world.resources = w0.resources
      ∧ (Event.getE (keyOf .jwt optsFull.Namespace) ∈
            (runEnsure .jwt envGetErr optsFull w0).events →
          (runEnsure .jwt envGetErr optsFull w0).res =
            .error (getMsgOf .jwt ++ ": " ++ "boom"))) :=
  ⟨by decide,
    (ensure_not_found_discrimination .jwt envGetErr optsFull w0).1 "boom"
      (by decide)⟩

/-! ## The options after one ensure pass -/

/-- `ensureSharedPasswordSecret` either leaves the options untouched, or — when
the plaintext was empty — writes the prompted plaintext into `SharedPassword`
and nothing else. -/
theorem sp_opts (env : Env) (opts : DeployOptions) (w : World) :
    (ensureSharedPasswordSecret env opts w).opts = opts ∨
    (opts.SharedPassword = "" ∧ ∃ pw, env.promptPassword = .ok pw ∧
      (ensureSharedPasswordSecret env opts w).opts
        = { opts with SharedPassword := pw }) := by
  by_cases hsp : opts.SharedPassword = ""
  · rcases hpp : env.promptPassword with e | pw
    · left
      simp [sp_prompt_err env opts w e hsp hpp]
    · right
      refine ⟨hsp, pw, rfl, ?_⟩
      rcases hbc : env.bcrypt pw with e | hash
      · simp [sp_bcrypt_err_prompt env opts w pw e hsp hpp hbc]
      · simp [sp_core_prompt env opts w pw hash hsp hpp hbc]
  · left
    rcases hbc : env.bcrypt opts.SharedPassword with e | hash
    · simp [sp_bcrypt_err env opts w e hsp hbc]
    · simp [sp_core env opts w hash hsp hbc]

/-- `ensureSecrets` either leaves the options untouched, or only writes the
prompted plaintext into `SharedPassword` (which was empty). -/
theorem ensureSecrets_opts (env : Env) (opts : DeployOptions) (w : World) :
    (ensureSecrets env opts w).opts = opts ∨
    (opts.SharedPassword = "" ∧ ∃ pw, env.promptPassword = .ok pw ∧
      (ensureSecrets env opts w).opts = { opts with SharedPassword := pw }) := by
  simp only [ensureSecrets]
  generalize ensureJWTSessionSecret env opts.Namespace w = r₁
  rcases h₁ : r₁.res with e₁ | u₁
  · simp
  · generalize ensurePostgresSecret env opts r₁.world = r₂
    rcases h₂ : r₂.res with e₂ | u₂
    · simp
    · generalize h₃ : ensureSharedPasswordSecret env opts r₂.world = r₃
      have hO := sp_opts env opts r₂.world
      rw [h₃] at hO
      rcases hres : r₃.res with e₃ | u₃
      · simpa using hO
      · generalize ensureS3Secret env r₃.opts.Namespace r₃.world = r₄
        rcases h₄ : r₄.res with e₄ | u₄ <;> simpa using hO

/-- C10: the apply-mode pass never writes generated credential material back
into the options: after `ensureSecrets`, every field except possibly the
plaintext `SharedPassword` is unchanged; `SharedPassword` changes only when it
was empty, and then to the prompted plaintext; and `ensureSharedPasswordSecret`
never sets `SharedPasswordBcrypt`. -/
theorem ensureSecrets_frame (env : Env) (opts : DeployOptions) (w : World) :
    ((ensureSecrets env opts w).opts.Namespace = opts.Namespace
      ∧ (ensureSecrets env opts w).opts.JWT = opts.JWT
      ∧ (ensureSecrets env opts w).opts.PostgresPassword = opts.PostgresPassword
      ∧ (ensureSecrets env opts w).opts.SharedPasswordBcrypt
          = opts.SharedPasswordBcrypt
      ∧ (ensureSecrets env opts w).opts.S3AccessKey = opts.S3AccessKey
      ∧ (ensureSecrets env opts w).opts.S3SecretKey = opts.S3SecretKey)
    ∧ (opts.SharedPassword ≠ "" →
        (ensureSecrets env opts w).opts.SharedPassword = opts.SharedPassword)
    ∧ (opts.SharedPassword = "" →
        (ensureSecrets env opts w).opts.SharedPassword = opts.SharedPassword
        ∨ ∃ pw, env.promptPassword = .ok pw
            ∧ (ensureSecrets env opts w).opts.SharedPassword = pw)
    ∧ (ensureSharedPasswordSecret env opts w).opts.SharedPasswordBcrypt
        = opts.SharedPasswordBcrypt := by
  refine ⟨?_, ?_, ?_, ?_⟩
  · rcases ensureSecrets_opts env opts w with hO | ⟨hsp, pw, hpp, hO⟩ <;>
      simp [hO]
  · intro hne
    rcases ensureSecrets_opts env opts w with hO | ⟨hsp, pw, hpp, hO⟩
    · simp [hO]
    · exact absurd hsp hne
  · intro hsp0
    rcases ensureSecrets_opts env opts w with hO | ⟨hsp, pw, hpp, hO⟩
    · left
      simp [hO]
    · right
      exact ⟨pw, hpp, by simp [hO]⟩
  · rcases sp_opts env opts w with hO | ⟨hsp, pw, hpp, hO⟩ <;> simp [hO]

/-- Witness for C10: a full options value, empty cluster, benign environment. -/
theorem ensureSecrets_frame_witness :
    ((ensureSecrets envW optsFull w0).opts.Namespace = optsFull.Namespace
      ∧ (ensureSecrets envW optsFull w0).opts.JWT = optsFull.JWT
      ∧ (ensureSecrets envW optsFull w0).opts.PostgresPassword
          = optsFull.PostgresPassword
      ∧ (ensureSecrets envW optsFull w0).opts.SharedPasswordBcrypt
          = optsFull.SharedPasswordBcrypt
      ∧ (ensureSecrets envW optsFull w0).opts.S3AccessKey = optsFull.S3AccessKey
      ∧ (ensureSecrets envW optsFull w0).opts.S3SecretKey = optsFull.S3SecretKey)
    ∧ (optsFull.SharedPassword ≠ "" →
        (ensureSecrets envW optsFull w0).opts.SharedPassword
          = optsFull.SharedPassword)
    ∧ (optsFull.SharedPassword = "" →
        (ensureSecrets envW optsFull w0).opts.SharedPassword
          = optsFull.SharedPassword
        ∨ ∃ pw, envW.promptPassword = .ok pw
            ∧ (ensureSecrets envW optsFull w0).opts.SharedPassword = pw)
    ∧ (ensureSharedPasswordSecret envW optsFull w0).opts.SharedPasswordBcrypt
        = optsFull.SharedPasswordBcrypt :=
  ensureSecrets_frame envW optsFull w0

/-! ## The options after one render pass -/

/-- What `getSecretsYAML` does to each parameter field: namespace, session key,
postgres password and plaintext are never written; supplied non-empty
credential fields are byte-unchanged; on a successful render an empty hash
field holds the bcrypt result and empty S3 fields hold the two fresh uuid
draws, in source order (secret key first). -/
theorem getSecretsYAML_policy (env : Env) (opts : DeployOptions) (w : World) :
    (getSecretsYAML env opts w).opts.Namespace = opts.Namespace
    ∧ (getSecretsYAML env opts w).opts.JWT = opts.JWT
    ∧ (getSecretsYAML env opts w).opts.PostgresPassword = opts.PostgresPassword
    ∧ (getSecretsYAML env opts w).opts.SharedPassword = opts.SharedPassword
    ∧ (opts.SharedPasswordBcrypt ≠ "" →
        (getSecretsYAML env opts w).opts.SharedPasswordBcrypt
          = opts.SharedPasswordBcrypt)
    ∧ (opts.S3SecretKey ≠ "" →
        (getSecretsYAML env opts w).opts.S3SecretKey = opts.S3SecretKey)
    ∧ (opts.S3AccessKey ≠ "" →
        (getSecretsYAML env opts w).opts.S3AccessKey = opts.S3AccessKey)
    ∧ ((getSecretsYAML env opts w).err = none → opts.SharedPasswordBcrypt = "" →
        ∃ hash, env.bcrypt opts.SharedPassword = .ok hash ∧
          (getSecretsYAML env opts w).opts.SharedPasswordBcrypt = hash)
    ∧ ((getSecretsYAML env opts w).err = none → opts.S3SecretKey = "" →
        (getSecretsYAML env opts w).opts.S3SecretKey
          = env.uuidStream w.uuidCount)
    ∧ ((getSecretsYAML env opts w).err = none → opts.S3AccessKey = "" →
        (getSecretsYAML env opts w).opts.S3AccessKey
          = env.uuidStream
              (if opts.S3SecretKey = "" then w.uuidCount + 1 else w.uuidCount)) := by
  rcases hj : env.encode (Resource.jwtSecret opts.Namespace opts.JWT) with e₁ | d₁
  · simp [getSecretsYAML, hj]
  rcases hp : env.encode (Resource.pgSecret opts.Namespace opts.PostgresPassword)
    with e₂ | d₂
  · simp [getSecretsYAML, hj, hp]
  by_cases hbcF : opts.SharedPasswordBcrypt = ""
  · rcases hbc : env.bcrypt opts.SharedPassword with e₃ | hash
    · simp [getSecretsYAML, hj, hp, hbcF, hbc]
    rcases hsp : env.encode (Resource.sharedPasswordSecret opts.Namespace hash)
      with e₄ | d₃
    · simp [getSecretsYAML, getSecretsYAML.getSecretsYAMLrest, hj, hp, hbcF,
        hbc, hsp]
    by_cases hss : opts.S3SecretKey = "" <;> by_cases has : opts.S3AccessKey = "" <;>
      simp only [getSecretsYAML, getSecretsYAML.getSecretsYAMLrest, hj, hp,
        hbcF, hbc, hsp, hss, has, nextUUID, if_true, if_false] <;>
      split <;>
      simp_all
  · rcases hsp : env.encode
      (Resource.sharedPasswordSecret opts.Namespace opts.SharedPasswordBcrypt)
      with e₄ | d₃
    · simp [getSecretsYAML, getSecretsYAML.getSecretsYAMLrest, hj, hp, hbcF, hsp]
    by_cases hss : opts.S3SecretKey = "" <;> by_cases has : opts.S3AccessKey = "" <;>
      simp only [getSecretsYAML, getSecretsYAML.getSecretsYAMLrest, hj, hp,
        hbcF, hsp, hss, has, nextUUID, if_true, if_false] <;>
      split <;>
      simp_all

/-- C3 counterexample: with an empty session-signing key (`JWT`) and empty S3
keys, a successful apply pass (`ensureSecrets`) populates none of them in the
parameters, and even a successful render (`getSecretsYAML`) leaves `JWT`
empty — refuting "one provisioning pass populates that field of the
parameters exactly once" as stated. -/
theorem generate_once_counterexample :
    optsEmpty.S3AccessKey = "" ∧ optsEmpty.S3SecretKey = ""
    ∧ optsEmpty.JWT = ""
    ∧ (ensureSecrets envW optsEmpty w0).res = .ok ()
    ∧ (ensureSecrets envW optsEmpty w0).opts.S3AccessKey = ""
    ∧ (ensureSecrets envW optsEmpty w0).opts.S3SecretKey = ""
    ∧ (ensureSecrets envW optsEmpty w0).opts.JWT = ""
    ∧ (getSecretsYAML envW optsEmpty w0).err = none
    ∧ (getSecretsYAML envW optsEmpty w0).opts.JWT = "" :=
  ⟨rfl, rfl, rfl, rfl, rfl, rfl, rfl, rfl, rfl⟩

/-- C3 amended: in render mode, `getSecretsYAML` never writes the namespace,
session-signing key, postgres password or plaintext; it leaves caller-supplied
non-empty hash and S3 fields byte-unchanged; and on a successful render it
populates an empty hash field with the bcrypt result and empty S3 fields with
the fresh uuid draws, each exactly once. In apply mode, `ensureSecrets` writes
no credential field back at all. -/
theorem generate_once_amended (env : Env) (opts : DeployOptions) (w : World) :
    (getSecretsYAML env opts w).opts.JWT = opts.JWT
    ∧ (getSecretsYAML env opts w).opts.PostgresPassword = opts.PostgresPassword
    ∧ (opts.SharedPasswordBcrypt ≠ "" →
        (getSecretsYAML env opts w).opts.SharedPasswordBcrypt
          = opts.SharedPasswordBcrypt)
    ∧ (opts.S3SecretKey ≠ "" →
        (getSecretsYAML env opts w).opts.S3SecretKey = opts.S3SecretKey)
    ∧ (opts.S3AccessKey ≠ "" →
        (getSecretsYAML env opts w).opts.S3AccessKey = opts.S3AccessKey)
    ∧ ((getSecretsYAML env opts w).err = none → opts.SharedPasswordBcrypt = "" →
        ∃ hash, env.bcrypt opts.SharedPassword = .ok hash ∧
          (getSecretsYAML env opts w).opts.SharedPasswordBcrypt = hash)
    ∧ ((getSecretsYAML env opts w).err = none → opts.S3SecretKey = "" →
        (getSecretsYAML env opts w).opts.S3SecretKey
          = env.uuidStream w.uuidCount)
    ∧ ((getSecretsYAML env opts w).err = none → opts.S3AccessKey = "" →
        (getSecretsYAML env opts w).opts.S3AccessKey
          = env.uuidStream
              (if opts.S3SecretKey = "" then w.uuidCount + 1 else w.uuidCount))
    ∧ (ensureSecrets env opts w).opts.JWT = opts.JWT
    ∧ (ensureSecrets env opts w).opts.SharedPasswordBcrypt
        = opts.SharedPasswordBcrypt
    ∧ (ensureSecrets env opts w).opts.S3AccessKey = opts.S3AccessKey
    ∧ (ensureSecrets env opts w).opts.S3SecretKey = opts.S3SecretKey := by
  obtain ⟨h1, h2, h3, h4, h5, h6, h7, h8, h9, h10⟩ :=
    getSecretsYAML_policy env opts w
  refine ⟨h2, h3, h5, h6, h7, h8, h9, h10, ?_, ?_, ?_, ?_⟩ <;>
    rcases ensureSecrets_opts env opts w with hO | ⟨hsp, pw, hpp, hO⟩ <;>
    simp [hO]

/-- Witness for C3 (amended), at the benign environment with empty generated
fields. -/
theorem generate_once_amended_witness :
    (getSecretsYAML envW optsEmpty w0).err = none
    ∧ ((getSecretsYAML envW optsEmpty w0).err = none →
        optsEmpty.S3SecretKey = "" →
        (getSecretsYAML envW optsEmpty w0).opts.S3SecretKey
          = envW.uuidStream w0.uuidCount)
    ∧ (getSecretsYAML envW optsEmpty w0).opts.S3SecretKey
        = envW.uuidStream w0.uuidCount :=
  ⟨rfl, (generate_once_amended envW optsEmpty w0).2.2.2.2.2.2.1,
    (generate_once_amended envW optsEmpty w0).2.2.2.2.2.2.1 rfl rfl⟩

/-! ## Counting bcrypt invocations -/

theorem ensureCore_bcryptCount (env : Env) (k : ClusterResourceKey)
    (gm cm : String) (build : World → Resource × World × List Event) (w : World)
    (hbe : BuildUuidOnly build) :
    bcryptCount (ensureCore env k gm cm build w).events = 0 := by
  rcases hg : env.getErr k with _ | e
  · rcases hl : lookupResource k w.resources with _ | r
    · rcases hc : env.createErr k with _ | e
      · rcases hb : build w with ⟨r, w₁, evs⟩
        rw [ensureCore_createOk env k gm cm build w r w₁ evs hg hl hc hb]
        have hevs : evs.filter Event.isBcrypt = [] := by
          apply List.filter_eq_nil_iff.mpr
          intro ev hev
          have := hbe w ev (by rw [hb]; exact hev)
          simp [this, Event.isBcrypt]
        simp [bcryptCount, List.filter_append, hevs, Event.isBcrypt]
      · rcases hb : build w with ⟨r, w₁, evs⟩
        rw [ensureCore_createFail env k gm cm build w e r w₁ evs hg hl hc hb]
        have hevs : evs.filter Event.isBcrypt = [] := by
          apply List.filter_eq_nil_iff.mpr
          intro ev hev
          have := hbe w ev (by rw [hb]; exact hev)
          simp [this, Event.isBcrypt]
        simp [bcryptCount, List.filter_append, hevs, Event.isBcrypt]
    · rw [ensureCore_found env k gm cm build w r hg hl]
      simp [bcryptCount, Event.isBcrypt]
  · rw [ensureCore_getErr env k gm cm build w e hg]
    simp [bcryptCount, Event.isBcrypt]

/-- C4 counterexample: with the hash field already populated,
`ensureSharedPasswordSecret` still invokes bcrypt (once), refuting "a pass
over parameters whose hash field is already populated never recomputes the
hash ... in apply mode". -/
theorem hash_once_counterexample :
    optsFull.SharedPasswordBcrypt ≠ ""
    ∧ bcryptCount (ensureSharedPasswordSecret envW optsFull w0).events = 1
    ∧ bcryptCount (ensureSecrets envW optsFull w0).events = 1 :=
  ⟨by decide, rfl, rfl⟩

/-- C4 amended: the hash is computed at most once per invocation everywhere;
in render mode it is computed only when the hash field is empty; but in apply
mode `ensureSharedPasswordSecret` computes it exactly once whenever the
plaintext is present, regardless of the hash field. -/
theorem hash_once_amended (env : Env) (opts : DeployOptions) (w : World) :
    bcryptCount (getSecretsYAML env opts w).events ≤ 1
    ∧ (opts.SharedPasswordBcrypt ≠ "" →
        bcryptCount (getSecretsYAML env opts w).events = 0)
    ∧ bcryptCount (ensureSharedPasswordSecret env opts w).events ≤ 1
    ∧ (opts.SharedPassword ≠ "" →
        bcryptCount (ensureSharedPasswordSecret env opts w).events = 1) := by
  have hcore : ∀ hash,
      bcryptCount (ensureCore env
        ⟨Kind.secret, opts.Namespace, "kotsadm-password"⟩
        "failed to get existing password secret" "failed to create password secret"
        (fun w => (Resource.sharedPasswordSecret opts.Namespace hash, w, [])) w).events
        = 0 := by
    intro hash
    exact ensureCore_bcryptCount env _ _ _ _ w (by intro w' ev hev; simp at hev)
  refine ⟨?_, ?_, ?_, ?_⟩
  · rcases hj : env.encode (Resource.jwtSecret opts.Namespace opts.JWT) with e₁ | d₁
    · simp [getSecretsYAML, hj, bcryptCount]
    rcases hp : env.encode (Resource.pgSecret opts.Namespace opts.PostgresPassword)
      with e₂ | d₂
    · simp [getSecretsYAML, hj, hp, bcryptCount]
    by_cases hbcF : opts.SharedPasswordBcrypt = ""
    · rcases hbc : env.bcrypt opts.SharedPassword with e₃ | hash
      · simp [getSecretsYAML, hj, hp, hbcF, hbc, bcryptCount, Event.isBcrypt]
      rcases hsp : env.encode (Resource.sharedPasswordSecret opts.Namespace hash)
        with e₄ | d₃
      · simp [getSecretsYAML, getSecretsYAML.getSecretsYAMLrest, hj, hp, hbcF,
          hbc, hsp, bcryptCount, Event.isBcrypt]
      by_cases hss : opts.S3SecretKey = "" <;> by_cases has : opts.S3AccessKey = "" <;>
        simp only [getSecretsYAML, getSecretsYAML.getSecretsYAMLrest, hj, hp,
          hbcF, hbc, hsp, hss, has, nextUUID, if_true, if_false] <;>
        split <;>
        simp_all [bcryptCount, Event.isBcrypt]
    · rcases hsp : env.encode
        (Resource.sharedPasswordSecret opts.Namespace opts.SharedPasswordBcrypt)
        with e₄ | d₃
      · simp [getSecretsYAML, getSecretsYAML.getSecretsYAMLrest, hj, hp, hbcF,
          hsp, bcryptCount]
      by_cases hss : opts.S3SecretKey = "" <;> by_cases has : opts.S3AccessKey = "" <;>
        simp only [getSecretsYAML, getSecretsYAML.getSecretsYAMLrest, hj, hp,
          hbcF, hsp, hss, has, nextUUID, if_true, if_false] <;>
        split <;>
        simp_all [bcryptCount, Event.isBcrypt]
  · intro hbcF
    rcases hj : env.encode (Resource.jwtSecret opts.Namespace opts.JWT) with e₁ | d₁
    · simp [getSecretsYAML, hj, bcryptCount]
    rcases hp : env.encode (Resource.pgSecret opts.Namespace opts.PostgresPassword)
      with e₂ | d₂
    · simp [getSecretsYAML, hj, hp, bcryptCount]
    rcases hsp : env.encode
      (Resource.sharedPasswordSecret opts.Namespace opts.SharedPasswordBcrypt)
      with e₄ | d₃
    · simp [getSecretsYAML, getSecretsYAML.getSecretsYAMLrest, hj, hp, hbcF,
        hsp, bcryptCount]
    by_cases hss : opts.S3SecretKey = "" <;> by_cases has : opts.S3AccessKey = "" <;>
      simp only [getSecretsYAML, getSecretsYAML.getSecretsYAMLrest, hj, hp,
        hbcF, hsp, hss, has, nextUUID, if_true, if_false, if_neg] <;>
      split <;>
      simp_all [bcryptCount, Event.isBcrypt]
  · by_cases hsp : opts.SharedPassword = ""
    · rcases hpp : env.promptPassword with e | pw
      · simp [sp_prompt_err env opts w e hsp hpp, bcryptCount, Event.isBcrypt]
      rcases hbc : env.bcrypt pw with e | hash
      · simp [sp_bcrypt_err_prompt env opts w pw e hsp hpp hbc, bcryptCount,
          Event.isBcrypt]
      · have h0 := hcore hash
        simp only [bcryptCount] at h0
        simp [sp_core_prompt env opts w pw hash hsp hpp hbc, bcryptCount,
          Event.isBcrypt, h0]
    · rcases hbc : env.bcrypt opts.SharedPassword with e | hash
      · simp [sp_bcrypt_err env opts w e hsp hbc, bcryptCount, Event.isBcrypt]
      · have h0 := hcore hash
        simp only [bcryptCount] at h0
        simp [sp_core env opts w hash hsp hbc, bcryptCount, Event.isBcrypt, h0]
  · intro hne
    by_cases hsp : opts.SharedPassword = ""
    · exact absurd hsp hne
    · rcases hbc : env.bcrypt opts.SharedPassword with e | hash
      · simp [sp_bcrypt_err env opts w e hsp hbc, bcryptCount, Event.isBcrypt]
      · have h0 := hcore hash
        simp only [bcryptCount] at h0
        simp [sp_core env opts w hash hsp hbc, bcryptCount, Event.isBcrypt, h0]

/-- Witness for C4 (amended): plaintext present, hash computed exactly once. -/
theorem hash_once_amended_witness :
    optsEmpty.SharedPassword ≠ ""
    ∧ bcryptCount (ensureSharedPasswordSecret envW optsEmpty w0).events = 1 :=
  ⟨by decide, (hash_once_amended envW optsEmpty w0).2.2.2 (by decide)⟩

/-! ## Failure of secret generation mid-pass -/

/-- An environment whose bcrypt (random-source/hashing) always fails. -/
def envBcryptFail : Env := { envW with bcrypt := fun _ => .error "entropy failure" }

/-- C5 counterexample: on an empty cluster, when hashing fails, `ensureSecrets`
reports the hashing error — but the jwt session secret and the postgres secret
were already created by that same invocation, refuting "no secret has been
created by that invocation" / "error is reported before any builder runs". -/
theorem generation_abort_counterexample :
    (ensureSecrets envBcryptFail optsFull w0).res =
      .error ("failed to ensure shared password secret: " ++
        ("failed to bcrypt shared password: " ++ "entropy failure"))
    ∧ Event.createE ⟨Kind.secret, "ns1", "kotsadm-session"⟩ true ∈
        (ensureSecrets envBcryptFail optsFull w0).events
    ∧ Event.createE ⟨Kind.secret, "ns1", "kotsadm-postgres"⟩ true ∈
        (ensureSecrets envBcryptFail optsFull w0).events
    ∧ (ensureSecrets envBcryptFail optsFull w0).world.resources ≠ [] :=
  ⟨rfl, by decide, by decide, by decide⟩

/-- C5 amended: when the jwt and postgres steps succeed and hashing fails,
`ensureSecrets` stops with the hashing error before the shared-password and s3
steps — no query or create for any key other than the jwt and postgres keys —
and the cluster is left exactly as the postgres step left it (the secrets
created earlier in the pass persist; there is no rollback). -/
theorem generation_abort_amended (env : Env) (opts : DeployOptions) (w : World)
    (e : String) (hsp : opts.SharedPassword ≠ "")
    (hbc : env.bcrypt opts.SharedPassword = .error e)
    (h₁ : (ensureJWTSessionSecret env opts.Namespace w).res = .ok ())
    (h₂ : (ensurePostgresSecret env opts
      (ensureJWTSessionSecret env opts.Namespace w).world).res = .ok ()) :
    (ensureSecrets env opts w).res =
      .error ("failed to ensure shared password secret: " ++
        ("failed to bcrypt shared password: " ++ e))
    ∧ (ensureSecrets env opts w).world =
        (ensurePostgresSecret env opts
          (ensureJWTSessionSecret env opts.Namespace w).world).world
    ∧ (ensureSecrets env opts w).events =
        (ensureJWTSessionSecret env opts.Namespace w).events ++
          (ensurePostgresSecret env opts
            (ensureJWTSessionSecret env opts.Namespace w).world).events ++
          [Event.bcryptE opts.SharedPassword]
    ∧ (∀ k' b, Event.createE k' b ∈ (ensureSecrets env opts w).events →
        k' = ⟨Kind.secret, opts.Namespace, "kotsadm-session"⟩
        ∨ k' = ⟨Kind.secret, opts.Namespace, "kotsadm-postgres"⟩) := by
  have hrw : ensureSecrets env opts w =
      ⟨.error ("failed to ensure shared password secret: " ++
          ("failed to bcrypt shared password: " ++ e)),
        opts,
        (ensurePostgresSecret env opts
          (ensureJWTSessionSecret env opts.Namespace w).world).world,
        (ensureJWTSessionSecret env opts.Namespace w).events ++
          ((ensurePostgresSecret env opts
            (ensureJWTSessionSecret env opts.Namespace w).world).events ++
            [Event.bcryptE opts.SharedPassword])⟩ := by
    simp only [ensureSecrets, h₁, h₂, sp_bcrypt_err env opts _ e hsp hbc,
      List.append_assoc]
  refine ⟨by rw [hrw], by rw [hrw], by rw [hrw]; simp, ?_⟩
  intro k' b hmem
  rw [hrw] at hmem
  simp only [List.mem_append, List.mem_singleton] at hmem
  rcases hmem with hmem | hmem | hmem
  · left
    have := ensureCore_createE_mem env
      ⟨Kind.secret, opts.Namespace, "kotsadm-session"⟩ _ _ _ w k' b
      (by intro w' ev hev; simp [nextUUID] at hev; all_goals exact hev) hmem
    exact this.1
  · right
    have := ensureCore_createE_mem env
      ⟨Kind.secret, opts.Namespace, "kotsadm-postgres"⟩ _ _ _
      (ensureJWTSessionSecret env opts.Namespace w).world k' b
      (by intro w' ev hev; simp at hev) hmem
    exact this.1
  · exact absurd hmem (by simp)

/-- Witness for C5 (amended), at the failing-bcrypt environment. -/
theorem generation_abort_amended_witness :
    (ensureSecrets envBcryptFail optsFull w0).res =
      .error ("failed to ensure shared password secret: " ++
        ("failed to bcrypt shared password: " ++ "entropy failure"))
    ∧ (ensureSecrets envBcryptFail optsFull w0).world =
        (ensurePostgresSecret envBcryptFail optsFull
          (ensureJWTSessionSecret envBcryptFail optsFull.Namespace w0).world).world
    ∧ (ensureSecrets envBcryptFail optsFull w0).events =
        (ensureJWTSessionSecret envBcryptFail optsFull.Namespace w0).events ++
          (ensurePostgresSecret envBcryptFail optsFull
            (ensureJWTSessionSecret envBcryptFail optsFull.Namespace w0).world).events ++
          [Event.bcryptE optsFull.SharedPassword]
    ∧ (∀ k' b,
        Event.createE k' b ∈ (ensureSecrets envBcryptFail optsFull w0).events →
        k' = ⟨Kind.secret, optsFull.Namespace, "kotsadm-session"⟩
        ∨ k' = ⟨Kind.secret, optsFull.Namespace, "kotsadm-postgres"⟩) :=
  generation_abort_amended envBcryptFail optsFull w0 "entropy failure"
    (by decide) rfl rfl rfl

/-! ## Render mode: determinism and completeness -/

/-- C7: when every credential field is caller-supplied and non-empty (so no
generation is needed), a render changes neither the options nor the world, and
a second render therefore returns byte-identical documents and the same error;
`getMinioYAML` depends only on the namespace and serializer, so two runs are
identical as well. -/
theorem render_deterministic (env : Env) (opts : DeployOptions) (w : World)
    (hJ : opts.JWT ≠ "") (hP : opts.PostgresPassword ≠ "")
    (hB : opts.SharedPasswordBcrypt ≠ "") (hA : opts.S3AccessKey ≠ "")
    (hS : opts.S3SecretKey ≠ "") :
    (getSecretsYAML env opts w).opts = opts
    ∧ (getSecretsYAML env opts w).world = w
    ∧ (getSecretsYAML env (getSecretsYAML env opts w).opts
        (getSecretsYAML env opts w).world).docs = (getSecretsYAML env opts w).docs
    ∧ (getSecretsYAML env (getSecretsYAML env opts w).opts
        (getSecretsYAML env opts w).world).err = (getSecretsYAML env opts w).err
    ∧ getMinioYAML env opts.Namespace = getMinioYAML env opts.Namespace := by
  have h12 : (getSecretsYAML env opts w).opts = opts
      ∧ (getSecretsYAML env opts w).world = w := by
    rcases hj : env.encode (Resource.jwtSecret opts.Namespace opts.JWT) with e | d₁
    · simp [getSecretsYAML, hj]
    rcases hp : env.encode (Resource.pgSecret opts.Namespace opts.PostgresPassword)
      with e | d₂
    · simp [getSecretsYAML, hj, hp]
    rcases hsp : env.encode
      (Resource.sharedPasswordSecret opts.Namespace opts.SharedPasswordBcrypt)
      with e | d₃
    · simp [getSecretsYAML, getSecretsYAML.getSecretsYAMLrest, hj, hp, hB, hsp]
    rcases hs3 : env.encode
      (Resource.s3Secret opts.Namespace opts.S3AccessKey opts.S3SecretKey)
      with e | d₄ <;>
      simp [getSecretsYAML, getSecretsYAML.getSecretsYAMLrest, hj, hp, hB, hsp,
        hS, hA, hs3]
  refine ⟨h12.1, h12.2, ?_, ?_, rfl⟩
  · rw [h12.1, h12.2]
  · rw [h12.1, h12.2]

/-- Witness for C7, at the benign environment with all fields supplied. -/
theorem render_deterministic_witness :
    (optsFull.JWT ≠ "" ∧ optsFull.PostgresPassword ≠ ""
      ∧ optsFull.SharedPasswordBcrypt ≠ "" ∧ optsFull.S3AccessKey ≠ ""
      ∧ optsFull.S3SecretKey ≠ "")
    ∧ (getSecretsYAML envW optsFull w0).opts = optsFull
    ∧ (getSecretsYAML envW optsFull w0).world = w0
    ∧ (getSecretsYAML envW (getSecretsYAML envW optsFull w0).opts
        (getSecretsYAML envW optsFull w0).world).docs
      = (getSecretsYAML envW optsFull w0).docs :=
  have h := render_deterministic envW optsFull w0 (by decide) (by decide)
    (by decide) (by decide) (by decide)
  ⟨⟨by decide, by decide, by decide, by decide, by decide⟩,
    h.1, h.2.1, h.2.2.1⟩

/-- Every render result of `getSecretsYAML` is all-or-nothing: either an error
with no document map, or no error and the full four-document map in source
order. -/
theorem getSecretsYAML_shape (env : Env) (opts : DeployOptions) (w : World) :
    ((getSecretsYAML env opts w).docs = none
      ∧ ∃ e, (getSecretsYAML env opts w).err = some e)
    ∨ ((getSecretsYAML env opts w).err = none
      ∧ ∃ d₁ d₂ d₃ d₄, (getSecretsYAML env opts w).docs =
          some [("secret-jwt.yaml", d₁), ("secret-pg.yaml", d₂),
            ("secret-shared-password.yaml", d₃), ("secret-s3.yaml", d₄)]) := by
  rcases hj : env.encode (Resource.jwtSecret opts.Namespace opts.JWT) with e | d₁
  · simp [getSecretsYAML, hj]
  rcases hp : env.encode (Resource.pgSecret opts.Namespace opts.PostgresPassword)
    with e | d₂
  · simp [getSecretsYAML, hj, hp]
  by_cases hbcF : opts.SharedPasswordBcrypt = ""
  · rcases hbc : env.bcrypt opts.SharedPassword with e₃ | hash
    · simp [getSecretsYAML, hj, hp, hbcF, hbc]
    rcases hsp : env.encode (Resource.sharedPasswordSecret opts.Namespace hash)
      with e₄ | d₃
    · simp [getSecretsYAML, getSecretsYAML.getSecretsYAMLrest, hj, hp, hbcF,
        hbc, hsp]
    by_cases hss : opts.S3SecretKey = "" <;> by_cases has : opts.S3AccessKey = "" <;>
      simp only [getSecretsYAML, getSecretsYAML.getSecretsYAMLrest, hj, hp,
        hbcF, hbc, hsp, hss, has, nextUUID, if_true, if_false] <;>
      split <;>
      simp_all
  · rcases hsp : env.encode
      (Resource.sharedPasswordSecret opts.Namespace opts.SharedPasswordBcrypt)
      with e₄ | d₃
    · simp [getSecretsYAML, getSecretsYAML.getSecretsYAMLrest, hj, hp, hbcF, hsp]
    by_cases hss : opts.S3SecretKey = "" <;> by_cases has : opts.S3AccessKey = "" <;>
      simp only [getSecretsYAML, getSecretsYAML.getSecretsYAMLrest, hj, hp,
        hbcF, hsp, hss, has, nextUUID, if_true, if_false] <;>
      split <;>
      simp_all

/-- Every render result of `getMinioYAML` is all-or-nothing as well. -/
theorem getMinioYAML_shape (env : Env) (ns : String) :
    ((getMinioYAML env ns).1 = none ∧ ∃ e, (getMinioYAML env ns).2 = some e)
    ∨ ((getMinioYAML env ns).2 = none
      ∧ ∃ d₁ d₂ d₃ d₄, (getMinioYAML env ns).1 =
          some [("minio-configmap.yaml", d₁), ("minio-statefulset.yaml", d₂),
            ("minio-service.yaml", d₃), ("minio-job.yaml", d₄)]) := by
  rcases h₁ : env.encode (Resource.minioConfigMap ns) with e | d₁
  · simp [getMinioYAML, h₁]
  rcases h₂ : env.encode (Resource.minioStatefulset ns) with e | d₂
  · simp [getMinioYAML, h₁, h₂]
  rcases h₃ : env.encode (Resource.minioService ns) with e | d₃
  · simp [getMinioYAML, h₁, h₂, h₃]
  rcases h₄ : env.encode (Resource.minioJob ns) with e | d₄ <;>
    simp [getMinioYAML, h₁, h₂, h₃, h₄]

/-- C8: a render never returns a partial manifest set: the document map is
`nil` exactly when an error is returned, and when a map is returned it contains
exactly the four fixed document names of that render, in source order. -/
theorem render_all_or_nothing (env : Env) (opts : DeployOptions) (w : World)
    (ns : String) :
    ((getSecretsYAML env opts w).docs = none ↔
      (getSecretsYAML env opts w).err ≠ none)
    ∧ (∀ d, (getSecretsYAML env opts w).docs = some d →
        d.map Prod.fst = ["secret-jwt.yaml", "secret-pg.yaml",
          "secret-shared-password.yaml", "secret-s3.yaml"])
    ∧ ((getMinioYAML env ns).1 = none ↔ (getMinioYAML env ns).2 ≠ none)
    ∧ (∀ d, (getMinioYAML env ns).1 = some d →
        d.map Prod.fst = ["minio-configmap.yaml", "minio-statefulset.yaml",
          "minio-service.yaml", "minio-job.yaml"]) := by
  refine ⟨?_, ?_, ?_, ?_⟩
  · rcases getSecretsYAML_shape env opts w with ⟨h1, e, h2⟩ | ⟨h1, d₁, d₂, d₃, d₄, h2⟩ <;>
      simp [h1, h2]
  · intro d hd
    rcases getSecretsYAML_shape env opts w with ⟨h1, e, h2⟩ | ⟨h1, d₁, d₂, d₃, d₄, h2⟩
    · rw [h1] at hd
      cases hd
    · rw [h2] at hd
      injection hd with hd
      subst hd
      rfl
  · rcases getMinioYAML_shape env ns with ⟨h1, e, h2⟩ | ⟨h1, d₁, d₂, d₃, d₄, h2⟩ <;>
      simp [h1, h2]
  · intro d hd
    rcases getMinioYAML_shape env ns with ⟨h1, e, h2⟩ | ⟨h1, d₁, d₂, d₃, d₄, h2⟩
    · rw [h1] at hd
      cases hd
    · rw [h2] at hd
      injection hd with hd
      subst hd
      rfl

/-- Witness for C8: the concrete benign render returns the full four-document
maps. -/
theorem render_all_or_nothing_witness :
    (getSecretsYAML envW optsFull w0).docs =
      some [("secret-jwt.yaml", "jwt:ns1:jwt0"), ("secret-pg.yaml", "pg:ns1:pg0"),
        ("secret-shared-password.yaml", "sp:ns1:bc0"),
        ("secret-s3.yaml", "s3:ns1:ak0:sk0")]
    ∧ [("secret-jwt.yaml", "jwt:ns1:jwt0"), ("secret-pg.yaml", "pg:ns1:pg0"),
        ("secret-shared-password.yaml", "sp:ns1:bc0"),
        ("secret-s3.yaml", "s3:ns1:ak0:sk0")].map Prod.fst
      = ["secret-jwt.yaml", "secret-pg.yaml", "secret-shared-password.yaml",
          "secret-s3.yaml"] :=
  ⟨rfl,
    (render_all_or_nothing envW optsFull w0 "ns1").2.1
      [("secret-jwt.yaml", "jwt:ns1:jwt0"), ("secret-pg.yaml", "pg:ns1:pg0"),
        ("secret-shared-password.yaml", "sp:ns1:bc0"),
        ("secret-s3.yaml", "s3:ns1:ak0:sk0")] rfl⟩

/-- C9: `getSecretsYAML` mutates its options: after a successful render the
hash and both S3 fields are non-empty (freshly generated when they started
empty, since real uuids and bcrypt hashes are never the empty string), and a
second render on the returned options and world yields a byte-identical
document map and no error. -/
theorem render_writeback_reproducible (env : Env) (opts : DeployOptions)
    (w : World)
    (hu : ∀ n, env.uuidStream n ≠ "")
    (hb : ∀ pw h, env.bcrypt pw = .ok h → h ≠ "")
    (herr : (getSecretsYAML env opts w).err = none) :
    (getSecretsYAML env opts w).opts.SharedPasswordBcrypt ≠ ""
    ∧ (getSecretsYAML env opts w).opts.S3SecretKey ≠ ""
    ∧ (getSecretsYAML env opts w).opts.S3AccessKey ≠ ""
    ∧ (getSecretsYAML env (getSecretsYAML env opts w).opts
        (getSecretsYAML env opts w).world).docs = (getSecretsYAML env opts w).docs
    ∧ (getSecretsYAML env (getSecretsYAML env opts w).opts
        (getSecretsYAML env opts w).world).err = none := by
  have h0 := hu w.uuidCount
  have h1 := hu (w.uuidCount + 1)
  rcases hj : env.encode (Resource.jwtSecret opts.Namespace opts.JWT) with e | d₁
  · simp [getSecretsYAML, hj] at herr
  rcases hp : env.encode (Resource.pgSecret opts.Namespace opts.PostgresPassword)
    with e | d₂
  · simp [getSecretsYAML, hj, hp] at herr
  by_cases hbcF : opts.SharedPasswordBcrypt = ""
  · rcases hbc : env.bcrypt opts.SharedPassword with e | hash
    · simp [getSecretsYAML, hj, hp, hbcF, hbc] at herr
    have hashne : hash ≠ "" := hb _ _ hbc
    rcases hsp : env.encode (Resource.sharedPasswordSecret opts.Namespace hash)
      with e | d₃
    · simp [getSecretsYAML, getSecretsYAML.getSecretsYAMLrest, hj, hp, hbcF,
        hbc, hsp] at herr
    by_cases hss : opts.S3SecretKey = ""
    · by_cases has : opts.S3AccessKey = ""
      · rcases hs3 : env.encode (Resource.s3Secret opts.Namespace
            (env.uuidStream (w.uuidCount + 1)) (env.uuidStream w.uuidCount))
          with e | d₄
        · simp [getSecretsYAML, getSecretsYAML.getSecretsYAMLrest, hj, hp,
            hbcF, hbc, hsp, hss, has, nextUUID, hs3] at herr
        · refine ⟨?_, ?_, ?_, ?_, ?_⟩ <;>
            simp [getSecretsYAML, getSecretsYAML.getSecretsYAMLrest, hj, hp,
              hbcF, hbc, hsp, hss, has, nextUUID, hs3, hashne, h0, h1]
      · rcases hs3 : env.encode (Resource.s3Secret opts.Namespace
            opts.S3AccessKey (env.uuidStream w.uuidCount)) with e | d₄
        · simp [getSecretsYAML, getSecretsYAML.getSecretsYAMLrest, hj, hp,
            hbcF, hbc, hsp, hss, has, nextUUID, hs3] at herr
        · refine ⟨?_, ?_, ?_, ?_, ?_⟩ <;>
            simp [getSecretsYAML, getSecretsYAML.getSecretsYAMLrest, hj, hp,
              hbcF, hbc, hsp, hss, has, nextUUID, hs3, hashne, h0, h1]
    · by_cases has : opts.S3AccessKey = ""
      · rcases hs3 : env.encode (Resource.s3Secret opts.Namespace
            (env.uuidStream w.uuidCount) opts.S3SecretKey) with e | d₄
        · simp [getSecretsYAML, getSecretsYAML.getSecretsYAMLrest, hj, hp,
            hbcF, hbc, hsp, hss, has, nextUUID, hs3] at herr
        · refine ⟨?_, ?_, ?_, ?_, ?_⟩ <;>
            simp [getSecretsYAML, getSecretsYAML.getSecretsYAMLrest, hj, hp,
              hbcF, hbc, hsp, hss, has, nextUUID, hs3, hashne, h0, h1]
      · rcases hs3 : env.encode (Resource.s3Secret opts.Namespace
            opts.S3AccessKey opts.S3SecretKey) with e | d₄
        · simp [getSecretsYAML, getSecretsYAML.getSecretsYAMLrest, hj, hp,
            hbcF, hbc, hsp, hss, has, nextUUID, hs3] at herr
        · refine ⟨?_, ?_, ?_, ?_, ?_⟩ <;>
            simp [getSecretsYAML, getSecretsYAML.getSecretsYAMLrest, hj, hp,
              hbcF, hbc, hsp, hss, has, nextUUID, hs3, hashne, h0, h1]
  · rcases hsp : env.encode
      (Resource.sharedPasswordSecret opts.Namespace opts.SharedPasswordBcrypt)
      with e | d₃
    · simp [getSecretsYAML, getSecretsYAML.getSecretsYAMLrest, hj, hp, hbcF,
        hsp] at herr
    by_cases hss : opts.S3SecretKey = ""
    · by_cases has : opts.S3AccessKey = ""
      · rcases hs3 : env.encode (Resource.s3Secret opts.Namespace
            (env.uuidStream (w.uuidCount + 1)) (env.uuidStream w.uuidCount))
          with e | d₄
        · simp [getSecretsYAML, getSecretsYAML.getSecretsYAMLrest, hj, hp,
            hbcF, hsp, hss, has, nextUUID, hs3] at herr
        · refine ⟨?_, ?_, ?_, ?_, ?_⟩ <;>
            simp [getSecretsYAML, getSecretsYAML.getSecretsYAMLrest, hj, hp,
              hbcF, hsp, hss, has, nextUUID, hs3, h0, h1]
      · rcases hs3 : env.encode (Resource.s3Secret opts.Namespace
            opts.S3AccessKey (env.uuidStream w.uuidCount)) with e | d₄
        · simp [getSecretsYAML, getSecretsYAML.getSecretsYAMLrest, hj, hp,
            hbcF, hsp, hss, has, nextUUID, hs3] at herr
        · refine ⟨?_, ?_, ?_, ?_, ?_⟩ <;>
            simp [getSecretsYAML, getSecretsYAML.getSecretsYAMLrest, hj, hp,
              hbcF, hsp, hss, has, nextUUID, hs3, h0, h1]
    · by_cases has : opts.S3AccessKey = ""
      · rcases hs3 : env.encode (Resource.s3Secret opts.Namespace
            (env.uuidStream w.uuidCount) opts.S3SecretKey) with e | d₄
        · simp [getSecretsYAML, getSecretsYAML.getSecretsYAMLrest, hj, hp,
            hbcF, hsp, hss, has, nextUUID, hs3] at herr
        · refine ⟨?_, ?_, ?_, ?_, ?_⟩ <;>
            simp [getSecretsYAML, getSecretsYAML.getSecretsYAMLrest, hj, hp,
              hbcF, hsp, hss, has, nextUUID, hs3, h0, h1]
      · rcases hs3 : env.encode (Resource.s3Secret opts.Namespace
            opts.S3AccessKey opts.S3SecretKey) with e | d₄
        · simp [getSecretsYAML, getSecretsYAML.getSecretsYAMLrest, hj, hp,
            hbcF, hsp, hss, has, nextUUID, hs3] at herr
        · refine ⟨?_, ?_, ?_, ?_, ?_⟩ <;>
            simp [getSecretsYAML, getSecretsYAML.getSecretsYAMLrest, hj, hp,
              hbcF, hsp, hss, has, nextUUID, hs3, h0, h1]

/-- Witness for C9: empty generated fields, benign environment, empty cluster. -/
theorem render_writeback_reproducible_witness :
    (getSecretsYAML envW optsEmpty w0).err = none
    ∧ ((getSecretsYAML envW optsEmpty w0).opts.SharedPasswordBcrypt ≠ ""
      ∧ (getSecretsYAML envW optsEmpty w0).opts.S3SecretKey ≠ ""
      ∧ (getSecretsYAML envW optsEmpty w0).opts.S3AccessKey ≠ ""
      ∧ (getSecretsYAML envW (getSecretsYAML envW optsEmpty w0).opts
          (getSecretsYAML envW optsEmpty w0).world).docs
        = (getSecretsYAML envW optsEmpty w0).docs
      ∧ (getSecretsYAML envW (getSecretsYAML envW optsEmpty w0).opts
          (getSecretsYAML envW optsEmpty w0).world).err = none) :=
  ⟨rfl,
    render_writeback_reproducible envW optsEmpty w0
      (by
        intro n h
        simp only [envW] at h
        have hl := congrArg String.length h
        simp only [String.length_append] at hl
        have h5 : ("uuid-" : String).length = 5 := rfl
        have h0 : ("" : String).length = 0 := rfl
        rw [h5, h0] at hl
        omega)
      (by
        intro pw h hh
        simp only [envW, Except.ok.injEq] at hh
        subst hh
        intro h
        have hl := congrArg String.length h
        simp only [String.length_append] at hl
        have h5 : ("hash-" : String).length = 5 := rfl
        have h0 : ("" : String).length = 0 := rfl
        rw [h5, h0] at hl
        omega)
      rfl⟩

/-! ## Ordering of the storage-service group -/

/-- The pass queried or tried to create the key `k`. -/
def TouchesKey (k : ClusterResourceKey) (evs : List Event) : Prop :=
  Event.getE k ∈ evs ∨ ∃ b, Event.createE k b ∈ evs

/-- Shape of the events of one `ensureCore` run: its own query, possibly its
own create, and uuid draws — nothing else. -/
theorem ensureCore_events_mem (env : Env) (k : ClusterResourceKey)
    (gm cm : String) (build : World → Resource × World × List Event) (w : World) :
    ∀ ev ∈ (ensureCore env k gm cm build w).events,
      ev = Event.getE k ∨ (∃ b, ev = Event.createE k b) ∨ ev ∈ (build w).2.2 := by
  intro ev hev
  rcases hg : env.getErr k with _ | e
  · rcases hl : lookupResource k w.resources with _ | r
    · rcases hc : env.createErr k with _ | e
      · rcases hb : build w with ⟨r, w₁, evs⟩
        rw [ensureCore_createOk env k gm cm build w r w₁ evs hg hl hc hb] at hev
        simp only [List.mem_cons, List.mem_append, List.mem_singleton] at hev
        rcases hev with h | h
        · rcases h with h | h
          · exact Or.inl h
          · exact Or.inr (Or.inr h)
        · rcases h with h | h
          · exact Or.inr (Or.inl ⟨true, h⟩)
          · exact absurd h (by simp)
      · rcases hb : build w with ⟨r, w₁, evs⟩
        rw [ensureCore_createFail env k gm cm build w e r w₁ evs hg hl hc hb] at hev
        simp only [List.mem_cons, List.mem_append, List.mem_singleton] at hev
        rcases hev with h | h
        · rcases h with h | h
          · exact Or.inl h
          · exact Or.inr (Or.inr h)
        · rcases h with h | h
          · exact Or.inr (Or.inl ⟨false, h⟩)
          · exact absurd h (by simp)
    · rw [ensureCore_found env k gm cm build w r hg hl] at hev
      simp only [List.mem_singleton] at hev
      exact Or.inl hev
  · rw [ensureCore_getErr env k gm cm build w e hg] at hev
    simp only [List.mem_singleton] at hev
    exact Or.inl hev

/-- The only key an `ensureCore` run ever queries or creates is its own. -/
theorem ensureCore_touch (env : Env) (k : ClusterResourceKey)
    (gm cm : String) (build : World → Resource × World × List Event) (w : World)
    (k' : ClusterResourceKey) (hbe : BuildUuidOnly build)
    (h : TouchesKey k' (ensureCore env k gm cm build w).events) : k' = k := by
  rcases h with h | ⟨b, h⟩
  · rcases ensureCore_events_mem env k gm cm build w _ h with h' | ⟨b', h'⟩ | h'
    · injection h' with h₁
    · exact absurd h' (by simp)
    · have hu := hbe w _ h'
      exact absurd hu (by simp)
  · rcases ensureCore_events_mem env k gm cm build w _ h with h' | ⟨b', h'⟩ | h'
    · exact absurd h' (by simp)
    · injection h' with h₁
    · have hu := hbe w _ h'
      exact absurd hu (by simp)

/-- Shape of the events of `ensureSharedPasswordSecret`: prompt, bcrypt, and
its own query/create. -/
theorem sp_events_mem (env : Env) (o : DeployOptions) (w' : World) :
    ∀ ev ∈ (ensureSharedPasswordSecret env o w').events,
      ev = Event.promptE ∨ (∃ pw, ev = Event.bcryptE pw) ∨
      ev = Event.getE ⟨Kind.secret, o.Namespace, "kotsadm-password"⟩ ∨
      (∃ b, ev = Event.createE ⟨Kind.secret, o.Namespace, "kotsadm-password"⟩ b) := by
  intro ev hev
  by_cases hsp : o.SharedPassword = ""
  · rcases hpp : env.promptPassword with e | pw
    · rw [sp_prompt_err env o w' e hsp hpp] at hev
      simp only [List.mem_singleton] at hev
      exact Or.inl hev
    rcases hbc : env.bcrypt pw with e | hash
    · rw [sp_bcrypt_err_prompt env o w' pw e hsp hpp hbc] at hev
      simp only [List.mem_cons, List.mem_singleton, List.not_mem_nil,
        or_false] at hev
      rcases hev with h | h
      · exact Or.inl h
      · exact Or.inr (Or.inl ⟨pw, h⟩)
    · rw [sp_core_prompt env o w' pw hash hsp hpp hbc] at hev
      simp only [List.mem_cons] at hev
      rcases hev with h | h
      · exact Or.inl h
      rcases h with h | h
      · exact Or.inr (Or.inl ⟨pw, h⟩)
      · rcases ensureCore_events_mem env _ _ _ _ w' _ h with h' | ⟨b', h'⟩ | h'
        · exact Or.inr (Or.inr (Or.inl h'))
        · exact Or.inr (Or.inr (Or.inr ⟨b', h'⟩))
        · simp at h'
  · rcases hbc : env.bcrypt o.SharedPassword with e | hash
    · rw [sp_bcrypt_err env o w' e hsp hbc] at hev
      simp only [List.mem_singleton] at hev
      exact Or.inr (Or.inl ⟨o.SharedPassword, hev⟩)
    · rw [sp_core env o w' hash hsp hbc] at hev
      simp only [List.mem_cons] at hev
      rcases hev with h | h
      · exact Or.inr (Or.inl ⟨o.SharedPassword, h⟩)
      · rcases ensureCore_events_mem env _ _ _ _ w' _ h with h' | ⟨b', h'⟩ | h'
        · exact Or.inr (Or.inr (Or.inl h'))
        · exact Or.inr (Or.inr (Or.inr ⟨b', h'⟩))
        · simp at h'

theorem jwt_events_mem (env : Env) (ns : String) (w : World) :
    ∀ ev ∈ (ensureJWTSessionSecret env ns w).events,
      ev = Event.getE ⟨Kind.secret, ns, "kotsadm-session"⟩ ∨
      (∃ b, ev = Event.createE ⟨Kind.secret, ns, "kotsadm-session"⟩ b) ∨
      ev = Event.uuidE := by
  intro ev hev
  rcases ensureCore_events_mem env _ _ _ _ w ev hev with h | h | h
  · exact Or.inl h
  · exact Or.inr (Or.inl h)
  · simp [nextUUID] at h
    exact Or.inr (Or.inr h)

theorem pg_events_mem (env : Env) (o : DeployOptions) (w : World) :
    ∀ ev ∈ (ensurePostgresSecret env o w).events,
      ev = Event.getE ⟨Kind.secret, o.Namespace, "kotsadm-postgres"⟩ ∨
      (∃ b, ev = Event.createE ⟨Kind.secret, o.Namespace, "kotsadm-postgres"⟩ b) := by
  intro ev hev
  rcases ensureCore_events_mem env _ _ _ _ w ev hev with h | h | h
  · exact Or.inl h
  · exact Or.inr h
  · simp at h

theorem s3_events_mem (env : Env) (ns : String) (w : World) :
    ∀ ev ∈ (ensureS3Secret env ns w).events,
      ev = Event.getE ⟨Kind.secret, ns, "kotsadm-minio"⟩ ∨
      (∃ b, ev = Event.createE ⟨Kind.secret, ns, "kotsadm-minio"⟩ b) ∨
      ev = Event.uuidE := by
  intro ev hev
  rcases ensureCore_events_mem env _ _ _ _ w ev hev with h | h | h
  · exact Or.inl h
  · exact Or.inr (Or.inl h)
  · simp [nextUUID] at h
    exact Or.inr (Or.inr h)

/-- Any key touched by the credentials group has kind `secret` — it can never
be the storage-service job's key. -/
theorem ensureSecrets_touch (env : Env) (opts : DeployOptions) (w : World)
    (k' : ClusterResourceKey)
    (h : TouchesKey k' (ensureSecrets env opts w).events) : k'.kind = Kind.secret := by
  have main : ∀ ev ∈ (ensureSecrets env opts w).events,
      ev = Event.promptE ∨ (∃ pw, ev = Event.bcryptE pw) ∨ ev = Event.uuidE ∨
      ∃ k : ClusterResourceKey, k.kind = Kind.secret ∧
        (ev = Event.getE k ∨ ∃ b, ev = Event.createE k b) := by
    intro ev hev
    simp only [ensureSecrets] at hev
    have from_jwt : ev ∈ (ensureJWTSessionSecret env opts.Namespace w).events →
        ev = Event.promptE ∨ (∃ pw, ev = Event.bcryptE pw) ∨ ev = Event.uuidE ∨
        ∃ k : ClusterResourceKey, k.kind = Kind.secret ∧
          (ev = Event.getE k ∨ ∃ b, ev = Event.createE k b) := by
      intro hm
      rcases jwt_events_mem env opts.Namespace w ev hm with h' | ⟨b, h'⟩ | h'
      · exact Or.inr (Or.inr (Or.inr ⟨_, rfl, Or.inl h'⟩))
      · exact Or.inr (Or.inr (Or.inr ⟨_, rfl, Or.inr ⟨b, h'⟩⟩))
      · exact Or.inr (Or.inr (Or.inl h'))
    have from_pg : ∀ w₂, ev ∈ (ensurePostgresSecret env opts w₂).events →
        ev = Event.promptE ∨ (∃ pw, ev = Event.bcryptE pw) ∨ ev = Event.uuidE ∨
        ∃ k : ClusterResourceKey, k.kind = Kind.secret ∧
          (ev = Event.getE k ∨ ∃ b, ev = Event.createE k b) := by
      intro w₂ hm
      rcases pg_events_mem env opts w₂ ev hm with h' | ⟨b, h'⟩
      · exact Or.inr (Or.inr (Or.inr ⟨_, rfl, Or.inl h'⟩))
      · exact Or.inr (Or.inr (Or.inr ⟨_, rfl, Or.inr ⟨b, h'⟩⟩))
    have from_sp : ∀ w₂, ev ∈ (ensureSharedPasswordSecret env opts w₂).events →
        ev = Event.promptE ∨ (∃ pw, ev = Event.bcryptE pw) ∨ ev = Event.uuidE ∨
        ∃ k : ClusterResourceKey, k.kind = Kind.secret ∧
          (ev = Event.getE k ∨ ∃ b, ev = Event.createE k b) := by
      intro w₂ hm
      rcases sp_events_mem env opts w₂ ev hm with h' | ⟨pw, h'⟩ | h' | ⟨b, h'⟩
      · exact Or.inl h'
      · exact Or.inr (Or.inl ⟨pw, h'⟩)
      · exact Or.inr (Or.inr (Or.inr ⟨_, rfl, Or.inl h'⟩))
      · exact Or.inr (Or.inr (Or.inr ⟨_, rfl, Or.inr ⟨b, h'⟩⟩))
    have from_s3 : ∀ ns w₂, ev ∈ (ensureS3Secret env ns w₂).events →
        ev = Event.promptE ∨ (∃ pw, ev = Event.bcryptE pw) ∨ ev = Event.uuidE ∨
        ∃ k : ClusterResourceKey, k.kind = Kind.secret ∧
          (ev = Event.getE k ∨ ∃ b, ev = Event.createE k b) := by
      intro ns w₂ hm
      rcases s3_events_mem env ns w₂ ev hm with h' | ⟨b, h'⟩ | h'
      · exact Or.inr (Or.inr (Or.inr ⟨_, rfl, Or.inl h'⟩))
      · exact Or.inr (Or.inr (Or.inr ⟨_, rfl, Or.inr ⟨b, h'⟩⟩))
      · exact Or.inr (Or.inr (Or.inl h'))
    rcases h₁ : (ensureJWTSessionSecret env opts.Namespace w).res with e₁ | u₁ <;>
      simp only [h₁] at hev
    · exact from_jwt hev
    rcases h₂ : (ensurePostgresSecret env opts
        (ensureJWTSessionSecret env opts.Namespace w).world).res with e₂ | u₂ <;>
      simp only [h₂, List.mem_append] at hev
    · rcases hev with hev | hev
      · exact from_jwt hev
      · exact from_pg _ hev
    rcases h₃ : (ensureSharedPasswordSecret env opts
        (ensurePostgresSecret env opts
          (ensureJWTSessionSecret env opts.Namespace w).world).world).res
      with e₃ | u₃ <;>
      simp only [h₃, List.mem_append] at hev
    · rcases hev with (hev | hev) | hev
      · exact from_jwt hev
      · exact from_pg _ hev
      · exact from_sp _ hev
    rcases h₄ : (ensureS3Secret env
        (ensureSharedPasswordSecret env opts
          (ensurePostgresSecret env opts
            (ensureJWTSessionSecret env opts.Namespace w).world).world).opts.Namespace
        (ensureSharedPasswordSecret env opts
          (ensurePostgresSecret env opts
            (ensureJWTSessionSecret env opts.Namespace w).world).world).world).res
      with e₄ | u₄ <;>
      simp only [h₄, List.mem_append] at hev <;>
      (rcases hev with ((hev | hev) | hev) | hev
       · exact from_jwt hev
       · exact from_pg _ hev
       · exact from_sp _ hev
       · exact from_s3 _ _ hev)
  rcases h with h | ⟨b, h⟩
  · rcases main _ h with h' | ⟨pw, h'⟩ | h' | ⟨k, hk, h' | ⟨b', h'⟩⟩
    · exact absurd h' (by simp)
    · exact absurd h' (by simp)
    · exact absurd h' (by simp)
    · injection h' with h₁
      rw [h₁]
      exact hk
    · exact absurd h' (by simp)
  · rcases main _ h with h' | ⟨pw, h'⟩ | h' | ⟨k, hk, h' | ⟨b', h'⟩⟩
    · exact absurd h' (by simp)
    · exact absurd h' (by simp)
    · exact absurd h' (by simp)
    · exact absurd h' (by simp)
    · injection h' with h₁
      rw [h₁]
      exact hk

theorem TouchesKey_append (k : ClusterResourceKey) (a b : List Event)
    (h : TouchesKey k (a ++ b)) : TouchesKey k a ∨ TouchesKey k b := by
  rcases h with h | ⟨bb, h⟩
  · rcases List.mem_append.mp h with h | h
    · exact Or.inl (Or.inl h)
    · exact Or.inr (Or.inl h)
  · rcases List.mem_append.mp h with h | h
    · exact Or.inl (Or.inr ⟨bb, h⟩)
    · exact Or.inr (Or.inr ⟨bb, h⟩)

/-! ### Characterization of `ensureMinio` -/

theorem em_cfg_err (env : Env) (o : DeployOptions) (w : World) (e : String)
    (h₁ : (ensureMinioConfigMap env o.Namespace w).res = .error e) :
    ensureMinio env o w =
      ⟨.error ("failed to ensure minio configmap: " ++ e),
        (ensureMinioConfigMap env o.Namespace w).world,
        (ensureMinioConfigMap env o.Namespace w).events⟩ := by
  simp only [ensureMinio, h₁]

theorem em_sts_err (env : Env) (o : DeployOptions) (w : World) (e : String)
    (h₁ : (ensureMinioConfigMap env o.Namespace w).res = .ok ())
    (h₂ : (ensureMinioStatefulset env o.Namespace
      (ensureMinioConfigMap env o.Namespace w).world).res = .error e) :
    ensureMinio env o w =
      ⟨.error ("failed to ensure minio statefulset: " ++ e),
        (ensureMinioStatefulset env o.Namespace
          (ensureMinioConfigMap env o.Namespace w).world).world,
        (ensureMinioConfigMap env o.Namespace w).events ++
          (ensureMinioStatefulset env o.Namespace
            (ensureMinioConfigMap env o.Namespace w).world).events⟩ := by
  simp only [ensureMinio, h₁, h₂]

theorem em_svc_err (env : Env) (o : DeployOptions) (w : World) (e : String)
    (h₁ : (ensureMinioConfigMap env o.Namespace w).res = .ok ())
    (h₂ : (ensureMinioStatefulset env o.Namespace
      (ensureMinioConfigMap env o.Namespace w).world).res = .ok ())
    (h₃ : (ensureMinioService env o.Namespace
      (ensureMinioStatefulset env o.Namespace
        (ensureMinioConfigMap env o.Namespace w).world).world).res = .error e) :
    ensureMinio env o w =
      ⟨.error ("failed to ensure minio service: " ++ e),
        (ensureMinioService env o.Namespace
          (ensureMinioStatefulset env o.Namespace
            (ensureMinioConfigMap env o.Namespace w).world).world).world,
        (ensureMinioConfigMap env o.Namespace w).events ++
          (ensureMinioStatefulset env o.Namespace
            (ensureMinioConfigMap env o.Namespace w).world).events ++
          (ensureMinioService env o.Namespace
            (ensureMinioStatefulset env o.Namespace
              (ensureMinioConfigMap env o.Namespace w).world).world).events⟩ := by
  simp only [ensureMinio, h₁, h₂, h₃]

theorem em_all (env : Env) (o : DeployOptions) (w : World)
    (h₁ : (ensureMinioConfigMap env o.Namespace w).res = .ok ())
    (h₂ : (ensureMinioStatefulset env o.Namespace
      (ensureMinioConfigMap env o.Namespace w).world).res = .ok ())
    (h₃ : (ensureMinioService env o.Namespace
      (ensureMinioStatefulset env o.Namespace
        (ensureMinioConfigMap env o.Namespace w).world).world).res = .ok ()) :
    (ensureMinio env o w).events =
      (ensureMinioConfigMap env o.Namespace w).events ++
        (ensureMinioStatefulset env o.Namespace
          (ensureMinioConfigMap env o.Namespace w).world).events ++
        (ensureMinioService env o.Namespace
          (ensureMinioStatefulset env o.Namespace
            (ensureMinioConfigMap env o.Namespace w).world).world).events ++
        (ensureMinioJob env o.Namespace
          (ensureMinioService env o.Namespace
            (ensureMinioStatefulset env o.Namespace
              (ensureMinioConfigMap env o.Namespace w).world).world).world).events := by
  simp only [ensureMinio, h₁, h₂, h₃]
  rcases h₄ : (ensureMinioJob env o.Namespace
      (ensureMinioService env o.Namespace
        (ensureMinioStatefulset env o.Namespace
          (ensureMinioConfigMap env o.Namespace w).world).world).world).res
    with e₄ | u₄ <;> simp

/-- The job's ensure-operation runs (its key is queried or created) only when
the config map, statefulset and service steps before it all succeeded. -/
theorem minio_job_touch (env : Env) (o : DeployOptions) (w : World)
    (h : TouchesKey ⟨Kind.job, o.Namespace, "kotsadm-minio"⟩
      (ensureMinio env o w).events) :
    (ensureMinioConfigMap env o.Namespace w).res = .ok ()
    ∧ (ensureMinioStatefulset env o.Namespace
        (ensureMinioConfigMap env o.Namespace w).world).res = .ok ()
    ∧ (ensureMinioService env o.Namespace
        (ensureMinioStatefulset env o.Namespace
          (ensureMinioConfigMap env o.Namespace w).world).world).res = .ok () := by
  have notouch_cfg : ∀ w', ¬ TouchesKey ⟨Kind.job, o.Namespace, "kotsadm-minio"⟩
      (ensureMinioConfigMap env o.Namespace w').events := by
    intro w' ht
    have hk := ensureCore_touch env _ _ _ _ w' _ (by intro a b c; simp at c) ht
    simp at hk
  have notouch_sts : ∀ w', ¬ TouchesKey ⟨Kind.job, o.Namespace, "kotsadm-minio"⟩
      (ensureMinioStatefulset env o.Namespace w').events := by
    intro w' ht
    have hk := ensureCore_touch env _ _ _ _ w' _ (by intro a b c; simp at c) ht
    simp at hk
  have notouch_svc : ∀ w', ¬ TouchesKey ⟨Kind.job, o.Namespace, "kotsadm-minio"⟩
      (ensureMinioService env o.Namespace w').events := by
    intro w' ht
    have hk := ensureCore_touch env _ _ _ _ w' _ (by intro a b c; simp at c) ht
    simp at hk
  rcases h₁ : (ensureMinioConfigMap env o.Namespace w).res with e₁ | u₁
  · rw [em_cfg_err env o w e₁ h₁] at h
    exact absurd h (notouch_cfg w)
  rcases h₂ : (ensureMinioStatefulset env o.Namespace
      (ensureMinioConfigMap env o.Namespace w).world).res with e₂ | u₂
  · rw [em_sts_err env o w e₂ h₁ h₂] at h
    rcases TouchesKey_append _ _ _ h with h | h
    · exact absurd h (notouch_cfg w)
    · exact absurd h (notouch_sts _)
  rcases h₃ : (ensureMinioService env o.Namespace
      (ensureMinioStatefulset env o.Namespace
        (ensureMinioConfigMap env o.Namespace w).world).world).res with e₃ | u₃
  · rw [em_svc_err env o w e₃ h₁ h₂ h₃] at h
    rcases TouchesKey_append _ _ _ h with h | h
    · rcases TouchesKey_append _ _ _ h with h | h
      · exact absurd h (notouch_cfg w)
      · exact absurd h (notouch_sts _)
    · exact absurd h (notouch_svc _)
  exact ⟨rfl, rfl, rfl⟩

/-! ### The cluster only grows -/

theorem ensureCore_mono (env : Env) (k : ClusterResourceKey)
    (gm cm : String) (build : World → Resource × World × List Event) (w : World)
    (hres : BuildPreserves build) :
    ∀ kv ∈ w.resources, kv ∈ (ensureCore env k gm cm build w).world.resources := by
  intro kv hkv
  rcases hg : env.getErr k with _ | e
  · rcases hl : lookupResource k w.resources with _ | r
    · rcases hc : env.createErr k with _ | e
      · rcases hb : build w with ⟨r, w₁, evs⟩
        rw [ensureCore_createOk env k gm cm build w r w₁ evs hg hl hc hb]
        have hw₁ : w₁.resources = w.resources := by
          have hh := hres w; rw [hb] at hh; exact hh
        exact List.mem_cons_of_mem _ (by rw [hw₁]; exact hkv)
      · rcases hb : build w with ⟨r, w₁, evs⟩
        rw [ensureCore_createFail env k gm cm build w e r w₁ evs hg hl hc hb]
        have hw₁ : w₁.resources = w.resources := by
          have hh := hres w; rw [hb] at hh; exact hh
        rw [hw₁]
        exact hkv
    · rw [ensureCore_found env k gm cm build w r hg hl]
      exact hkv
  · rw [ensureCore_getErr env k gm cm build w e hg]
    exact hkv

theorem runEnsure_mono (op : OpName) (env : Env) (opts : DeployOptions)
    (w : World) :
    ∀ kv ∈ w.resources, kv ∈ (runEnsure op env opts w).world.resources := by
  intro kv hkv
  cases op
  case sharedPassword =>
    simp only [runEnsure]
    by_cases hsp : opts.SharedPassword = ""
    · rcases hpp : env.promptPassword with e | pw
      · rw [sp_prompt_err env opts w e hsp hpp]
        exact hkv
      rcases hbc : env.bcrypt pw with e | hash
      · rw [sp_bcrypt_err_prompt env opts w pw e hsp hpp hbc]
        exact hkv
      · rw [sp_core_prompt env opts w pw hash hsp hpp hbc]
        exact ensureCore_mono env _ _ _ _ w (fun w' => rfl) kv hkv
    · rcases hbc : env.bcrypt opts.SharedPassword with e | hash
      · rw [sp_bcrypt_err env opts w e hsp hbc]
        exact hkv
      · rw [sp_core env opts w hash hsp hbc]
        exact ensureCore_mono env _ _ _ _ w (fun w' => rfl) kv hkv
  all_goals
    first
    | (simp only [runEnsure, withOpts_world, ensureJWTSessionSecret,
        ensurePostgresSecret, ensureS3Secret, ensureMinioConfigMap,
        ensureMinioStatefulset, ensureMinioService, ensureMinioJob]
       refine ensureCore_mono env _ _ _ _ w ?_ kv hkv
       intro w'
       rfl)

theorem ensureSecrets_mono (env : Env) (opts : DeployOptions) (w : World) :
    ∀ kv ∈ w.resources, kv ∈ (ensureSecrets env opts w).world.resources := by
  intro kv hkv
  simp only [ensureSecrets]
  have m₁ := runEnsure_mono .jwt env opts w kv hkv
  rcases h₁ : (ensureJWTSessionSecret env opts.Namespace w).res with e₁ | u₁ <;>
    simp only [h₁]
  · exact m₁
  have m₂ := runEnsure_mono .pg env opts
    (ensureJWTSessionSecret env opts.Namespace w).world kv m₁
  rcases h₂ : (ensurePostgresSecret env opts
      (ensureJWTSessionSecret env opts.Namespace w).world).res with e₂ | u₂ <;>
    simp only [h₂]
  · exact m₂
  have m₃ := runEnsure_mono .sharedPassword env opts
    (ensurePostgresSecret env opts
      (ensureJWTSessionSecret env opts.Namespace w).world).world kv m₂
  rcases h₃ : (ensureSharedPasswordSecret env opts
      (ensurePostgresSecret env opts
        (ensureJWTSessionSecret env opts.Namespace w).world).world).res
    with e₃ | u₃ <;>
    simp only [h₃]
  · exact m₃
  have m₄ := runEnsure_mono .s3 env
    (ensureSharedPasswordSecret env opts
      (ensurePostgresSecret env opts
        (ensureJWTSessionSecret env opts.Namespace w).world).world).opts
    (ensureSharedPasswordSecret env opts
      (ensurePostgresSecret env opts
        (ensureJWTSessionSecret env opts.Namespace w).world).world).world kv m₃
  rcases h₄ : (ensureS3Secret env
      (ensureSharedPasswordSecret env opts
        (ensurePostgresSecret env opts
          (ensureJWTSessionSecret env opts.Namespace w).world).world).opts.Namespace
      (ensureSharedPasswordSecret env opts
        (ensurePostgresSecret env opts
          (ensureJWTSessionSecret env opts.Namespace w).world).world).world).res
    with e₄ | u₄ <;>
    simp only [h₄] <;>
    exact m₄

theorem ensureMinio_mono (env : Env) (o : DeployOptions) (w : World) :
    ∀ kv ∈ w.resources, kv ∈ (ensureMinio env o w).world.resources := by
  intro kv hkv
  simp only [ensureMinio]
  have m₁ := runEnsure_mono .minioConfigMap env o w kv hkv
  rcases h₁ : (ensureMinioConfigMap env o.Namespace w).res with e₁ | u₁ <;>
    simp only [h₁]
  · exact m₁
  have m₂ := runEnsure_mono .minioStatefulset env o
    (ensureMinioConfigMap env o.Namespace w).world kv m₁
  rcases h₂ : (ensureMinioStatefulset env o.Namespace
      (ensureMinioConfigMap env o.Namespace w).world).res with e₂ | u₂ <;>
    simp only [h₂]
  · exact m₂
  have m₃ := runEnsure_mono .minioService env o
    (ensureMinioStatefulset env o.Namespace
      (ensureMinioConfigMap env o.Namespace w).world).world kv m₂
  rcases h₃ : (ensureMinioService env o.Namespace
      (ensureMinioStatefulset env o.Namespace
        (ensureMinioConfigMap env o.Namespace w).world).world).res with e₃ | u₃ <;>
    simp only [h₃]
  · exact m₃
  have m₄ := runEnsure_mono .minioJob env o
    (ensureMinioService env o.Namespace
      (ensureMinioStatefulset env o.Namespace
        (ensureMinioConfigMap env o.Namespace w).world).world).world kv m₃
  rcases h₄ : (ensureMinioJob env o.Namespace
      (ensureMinioService env o.Namespace
        (ensureMinioStatefulset env o.Namespace
          (ensureMinioConfigMap env o.Namespace w).world).world).world).res
    with e₄ | u₄ <;>
    simp only [h₄] <;>
    exact m₄

/-- C6: ordering and fail-stop of the provisioning sequence. Within the
storage-service group, the one-shot job's ensure-operation runs only after the
config map, statefulset and service steps succeeded; a failing step stops the
sequence with its wrapped error and the later steps leave no events. Across
groups (orchestrator modelled from the spec), a failing credentials group
stops the pass before any storage event, the job runs only after the
credentials group and the three prior storage steps succeeded, and nothing
already in the cluster is ever removed. -/
theorem storage_job_ordering (env : Env) (opts : DeployOptions) (w : World) :
    (TouchesKey ⟨Kind.job, opts.Namespace, "kotsadm-minio"⟩
        (ensureMinio env opts w).events →
      (ensureMinioConfigMap env opts.Namespace w).res = .ok ()
      ∧ (ensureMinioStatefulset env opts.Namespace
          (ensureMinioConfigMap env opts.Namespace w).world).res = .ok ()
      ∧ (ensureMinioService env opts.Namespace
          (ensureMinioStatefulset env opts.Namespace
            (ensureMinioConfigMap env opts.Namespace w).world).world).res = .ok ())
    ∧ (∀ e, (ensureMinioConfigMap env opts.Namespace w).res = .error e →
        (ensureMinio env opts w).res =
          .error ("failed to ensure minio configmap: " ++ e)
        ∧ (ensureMinio env opts w).events =
            (ensureMinioConfigMap env opts.Namespace w).events)
    ∧ (∀ e, (ensureMinioConfigMap env opts.Namespace w).res = .ok () →
        (ensureMinioStatefulset env opts.Namespace
          (ensureMinioConfigMap env opts.Namespace w).world).res = .error e →
        (ensureMinio env opts w).res =
          .error ("failed to ensure minio statefulset: " ++ e)
        ∧ (ensureMinio env opts w).events =
            (ensureMinioConfigMap env opts.Namespace w).events ++
              (ensureMinioStatefulset env opts.Namespace
                (ensureMinioConfigMap env opts.Namespace w).world).events)
    ∧ (∀ e, (ensureMinioConfigMap env opts.Namespace w).res = .ok () →
        (ensureMinioStatefulset env opts.Namespace
          (ensureMinioConfigMap env opts.Namespace w).world).res = .ok () →
        (ensureMinioService env opts.Namespace
          (ensureMinioStatefulset env opts.Namespace
            (ensureMinioConfigMap env opts.Namespace w).world).world).res = .error e →
        (ensureMinio env opts w).res =
          .error ("failed to ensure minio service: " ++ e)
        ∧ (ensureMinio env opts w).events =
            (ensureMinioConfigMap env opts.Namespace w).events ++
              (ensureMinioStatefulset env opts.Namespace
                (ensureMinioConfigMap env opts.Namespace w).world).events ++
              (ensureMinioService env opts.Namespace
                (ensureMinioStatefulset env opts.Namespace
                  (ensureMinioConfigMap env opts.Namespace w).world).world).events)
    ∧ (∀ e, (ensureSecrets env opts w).res = .error e →
        (ensureKotsadm env opts w).res = .error e
        ∧ (ensureKotsadm env opts w).events = (ensureSecrets env opts w).events
        ∧ (ensureKotsadm env opts w).world = (ensureSecrets env opts w).world)
    ∧ (TouchesKey ⟨Kind.job, opts.Namespace, "kotsadm-minio"⟩
          (ensureKotsadm env opts w).events →
        (ensureSecrets env opts w).res = .ok ()
        ∧ (ensureMinioConfigMap env (ensureSecrets env opts w).opts.Namespace
            (ensureSecrets env opts w).world).res = .ok ()
        ∧ (ensureMinioStatefulset env (ensureSecrets env opts w).opts.Namespace
            (ensureMinioConfigMap env (ensureSecrets env opts w).opts.Namespace
              (ensureSecrets env opts w).world).world).res = .ok ()
        ∧ (ensureMinioService env (ensureSecrets env opts w).opts.Namespace
            (ensureMinioStatefulset env (ensureSecrets env opts w).opts.Namespace
              (ensureMinioConfigMap env (ensureSecrets env opts w).opts.Namespace
                (ensureSecrets env opts w).world).world).world).res = .ok ())
    ∧ (∀ kv ∈ w.resources, kv ∈ (ensureKotsadm env opts w).world.resources) := by
  have hns : (ensureSecrets env opts w).opts.Namespace = opts.Namespace := by
    rcases ensureSecrets_opts env opts w with hO | ⟨hsp, pw, hpp, hO⟩ <;> simp [hO]
  refine ⟨minio_job_touch env opts w, ?_, ?_, ?_, ?_, ?_, ?_⟩
  · intro e h₁
    exact ⟨by simp [ensureMinio, h₁], by simp [ensureMinio, h₁]⟩
  · intro e h₁ h₂
    exact ⟨by simp [ensureMinio, h₁, h₂], by simp [ensureMinio, h₁, h₂]⟩
  · intro e h₁ h₂ h₃
    exact ⟨by simp [ensureMinio, h₁, h₂, h₃],
      by simp [ensureMinio, h₁, h₂, h₃]⟩
  · intro e h₁
    exact ⟨by simp [ensureKotsadm, h₁], by simp [ensureKotsadm, h₁],
      by simp [ensureKotsadm, h₁]⟩
  · intro ht
    rcases hres : (ensureSecrets env opts w).res with e | u
    · simp only [ensureKotsadm, hres] at ht
      have hk := ensureSecrets_touch env opts w _ ht
      simp at hk
    · simp only [ensureKotsadm, hres] at ht
      rcases TouchesKey_append _ _ _ ht with ht | ht
      · have hk := ensureSecrets_touch env opts w _ ht
        simp at hk
      · rw [← hns] at ht
        exact ⟨rfl, minio_job_touch env (ensureSecrets env opts w).opts
          (ensureSecrets env opts w).world ht⟩
  · intro kv hkv
    rcases hres : (ensureSecrets env opts w).res with e | u <;>
      simp only [ensureKotsadm, hres]
    · exact ensureSecrets_mono env opts w kv hkv
    · exact ensureMinio_mono env _ _ kv (ensureSecrets_mono env opts w kv hkv)

/-- Witness for C6: a fresh namespace, benign environment — the job is touched
and all prior steps succeeded. -/
theorem storage_job_ordering_witness :
    TouchesKey ⟨Kind.job, optsFull.Namespace, "kotsadm-minio"⟩
      (ensureMinio envW optsFull w0).events
    ∧ ((ensureMinioConfigMap envW optsFull.Namespace w0).res = .ok ()
      ∧ (ensureMinioStatefulset envW optsFull.Namespace
          (ensureMinioConfigMap envW optsFull.Namespace w0).world).res = .ok ()
      ∧ (ensureMinioService envW optsFull.Namespace
          (ensureMinioStatefulset envW optsFull.Namespace
            (ensureMinioConfigMap envW optsFull.Namespace w0).world).world).res
        = .ok ()) :=
  have ht : TouchesKey ⟨Kind.job, optsFull.Namespace, "kotsadm-minio"⟩
      (ensureMinio envW optsFull w0).events := Or.inl (by decide)
  ⟨ht, (storage_job_ordering envW optsFull w0).1 ht⟩

end Kots
